import Mathlib

/-!
# Anti-Soy V2 — formal model of the extraction-and-scoring pipeline

A shallow embedding, in Lean 4, of the scoring core of the Anti-Soy repository
(`server/v2/data_extractor.py`, `server/v2/feature_extractor.py`,
`server/v2/analyzers/{ai_slop,bad_practices,code_quality}.py`, and the verdict
combiner in `server/main.py`), together with theorems settling the claims of
the specification.

Modelling conventions:

* Python `str` is modelled as Lean `String`; every operation used by the code
  (split, strip, lower, containment, slicing) is defined below over the
  character list `String.data`, matching Python's per-character semantics.
* Python `float` is modelled as the exact rational `ℚ`.  All constants in the
  code (0.40, 0.15, 0.95, …) are exact decimals, so the only divergence from
  IEEE doubles could occur at exact representation/rounding boundaries, which
  none of the verified claims depend on.  Python's banker's rounding
  (`round`) and truncation (`int`) are modelled explicitly.
* Python dictionaries are modelled as insertion-ordered association lists,
  matching CPython's guaranteed dict iteration order.
* Calls into the `re` regex library are modelled by an abstract oracle
  (`ReOracle`): each call site passes the exact pattern string from the
  source.  Every theorem below quantifies over the oracle, so no proof
  depends on any particular regex behaviour.
* The trained ML classifier (an external `joblib` artifact) is modelled as an
  abstract prediction function; theorems quantify over it.
* Fallible operations (division, `int()` string parsing) are modelled with
  `Option`, so "never raises" claims are provable as `= some _`.
-/

set_option maxHeartbeats 1000000

namespace AntiSoy

/-! ## Python string primitives -/

/-- Python `s.split(sep)` for a single-character separator. -/
def listSplitChar (sep : Char) : List Char → List (List Char)
  | [] => [[]]
  | c :: cs =>
    match listSplitChar sep cs with
    | [] => [[]]
    | r :: rs => if c = sep then [] :: r :: rs else (c :: r) :: rs

def pySplitChar (sep : Char) (s : String) : List String :=
  (listSplitChar sep s.data).map String.mk

/-- Python `s.split("|||")` (the only multi-character separator the code uses). -/
def listSplitPipes : List Char → List (List Char)
  | [] => [[]]
  | c :: cs =>
    if c = '|' ∧ ['|', '|'].isPrefixOf cs then
      [] :: listSplitPipes (cs.drop 2)
    else
      match listSplitPipes cs with
      | [] => [[]]
      | r :: rs => (c :: r) :: rs
termination_by l => l.length
decreasing_by
  · simp only [List.length_drop, List.length_cons]; omega
  · simp only [List.length_cons]; omega

def pySplitPipes (s : String) : List String :=
  (listSplitPipes s.data).map String.mk

/-- Python `pat in s` (substring containment). -/
def pyContains (s pat : String) : Bool :=
  s.data.tails.any (fun t => pat.data.isPrefixOf t)

def pyLower (s : String) : String := ⟨s.data.map Char.toLower⟩

def pyStartsWith (s pre : String) : Bool := pre.data.isPrefixOf s.data

def pyEndsWith (s suf : String) : Bool := suf.data.isSuffixOf s.data

/-- Python `s.endswith((suf₁, suf₂, …))`. -/
def pyEndsWithAny (s : String) (sufs : List String) : Bool :=
  sufs.any (pyEndsWith s)

def listStrip (l : List Char) : List Char :=
  ((l.dropWhile Char.isWhitespace).reverse.dropWhile Char.isWhitespace).reverse

/-- Python `s.strip()` (ASCII whitespace; the code never feeds it exotic
Unicode whitespace). -/
def pyStrip (s : String) : String := ⟨listStrip s.data⟩

/-- Python `s[:n]` for `0 ≤ n`. -/
def pyTake (s : String) (n : ℕ) : String := ⟨s.data.take n⟩

/-- Python `s[a:b]` for `0 ≤ a ≤ b`. -/
def pySlice (s : String) (a b : ℕ) : String := ⟨(s.data.drop a).take (b - a)⟩

/-- Python `len(s)` (a character count, like Lean's `List.length` on `data`). -/
def pyLen (s : String) : ℕ := s.data.length

/-- Python `sep.join(xs)`. -/
def pyJoin (sep : String) : List String → String
  | [] => ""
  | [x] => x
  | x :: y :: xs => x ++ sep ++ pyJoin sep (y :: xs)

/-- Python `s.split()` (no argument: split on whitespace runs, no empties). -/
def pySplitWS (s : String) : List String :=
  ((pySplitChar ' ' ⟨s.data.map (fun c => if c.isWhitespace then ' ' else c)⟩).filter
    (· ≠ "")).map id

/-- Number of `'\n'` characters in the first `n` characters of `s`
(Python `content[:pos].count('\n')`). -/
def countNewlinesBefore (s : String) (n : ℕ) : ℕ :=
  (s.data.take n).count '\n'

/-- Python list slice `xs[a:b]` for `0 ≤ a ≤ b`. -/
def pyListSlice {α : Type} (xs : List α) (a b : ℕ) : List α :=
  (xs.drop a).take (b - a)

/-- Python `str(n)` for a natural number. -/
def natStr (n : ℕ) : String := Nat.repr n

/-- Python string comparison `<` is lexicographic on code points;
used by `sorted(...)` over emoji strings. -/
def strLt (a b : String) : Bool :=
  (a.data.map Char.toNat) < (b.data.map Char.toNat)

/-- Python `sorted(xs)` for strings (insertion sort; `sorted` is stable, and
stability is irrelevant after the dedup below). -/
def pySorted (xs : List String) : List String :=
  let rec insert (x : String) : List String → List String
    | [] => [x]
    | y :: ys => if strLt y x then y :: insert x ys else x :: y :: ys
  xs.foldr insert []

/-- Deduplicate preserving first-occurrence order (models building a Python
`set` whose contents are then sorted). -/
def dedup (xs : List String) : List String :=
  xs.foldl (fun acc x => if acc.contains x then acc else acc ++ [x]) []

/-! ## Python numeric primitives -/

/-- Python `round(x)`: round half to even (banker's rounding). -/
def pythonRound (q : ℚ) : ℤ :=
  let f : ℤ := ⌊q⌋
  let r : ℚ := q - f
  if r < 1/2 then f
  else if 1/2 < r then f + 1
  else if f % 2 = 0 then f else f + 1

/-- Python `int(x)` on a number: truncation toward zero. -/
def pythonTrunc (q : ℚ) : ℤ :=
  if q < 0 then -⌊-q⌋ else ⌊q⌋

/-- Python `round(x, 3)`. -/
def pyRound3 (q : ℚ) : ℚ := (pythonRound (q * 1000) : ℚ) / 1000

/-- Python `round(x, 2)`. -/
def pyRound2 (q : ℚ) : ℚ := (pythonRound (q * 100) : ℚ) / 100

/-- Python `int(s)` on a string: `none` models `ValueError`.  (Python also
accepts underscore digit grouping; the grouped form never occurs in the git
`--numstat` output this is applied to and is not modelled.) -/
def pyIntOfStr (s : String) : Option ℤ :=
  let t := (pyStrip s).data
  let digits : List Char → Option ℤ := fun l =>
    if l ≠ [] ∧ l.all Char.isDigit then
      some (l.foldl (fun a c => a * 10 + ((c.toNat : ℤ) - 48)) 0)
    else none
  match t with
  | '+' :: rest => digits rest
  | '-' :: rest => (digits rest).map (fun n => -n)
  | rest => digits rest

/-- Guarded rational division: `none` models Python `ZeroDivisionError`. -/
def pydiv (a b : ℚ) : Option ℚ :=
  if b = 0 then none else some (a / b)

/-! ## Shared schema types (`server/v2/schemas.py`) -/

/-- `schemas.Severity`. -/
inductive Severity where
  | critical
  | warning
  | info
deriving DecidableEq, Repr

/-- `schemas.Confidence`. -/
inductive Confidence where
  | low
  | medium
  | high
deriving DecidableEq, Repr

/-- `schemas.Finding`. -/
structure Finding where
  type : String
  severity : Severity
  file : String
  line : ℕ
  snippet : String
  explanation : String
deriving DecidableEq, Repr

/-- `schemas.PositiveSignal`. -/
structure PositiveSignal where
  type : String
  file : Option String
  explanation : String
deriving DecidableEq, Repr

/-- `schemas.StyleFeatures` (floats as exact rationals). -/
structure StyleFeatures where
  function_naming_consistency : ℚ
  variable_naming_consistency : ℚ
  class_naming_consistency : ℚ
  constant_naming_consistency : ℚ
  indentation_consistency : ℚ
  avg_function_length : ℚ
  avg_nesting_depth : ℚ
  comment_ratio : ℚ
  avg_function_name_length : ℚ
  avg_variable_name_length : ℚ
  max_function_length : ℕ
  max_nesting_depth : ℕ
  docstring_coverage : ℚ
  redundant_comment_count : ℕ
deriving DecidableEq, Repr

/-- `schemas.AISlop`. -/
structure AISlop where
  score : ℤ
  confidence : Confidence
  style_features : StyleFeatures
  negative_ai_signals : List Finding
  positive_ai_signals : List PositiveSignal
deriving DecidableEq, Repr

/-- `schemas.BadPractices`. -/
structure BadPractices where
  score : ℤ
  security_issues : ℕ
  robustness_issues : ℕ
  hygiene_issues : ℕ
  findings : List Finding
deriving DecidableEq, Repr

/-- `schemas.CodeQuality`. -/
structure CodeQuality where
  score : ℤ
  files_organized : ℤ
  test_coverage : ℤ
  readme_quality : ℤ
  error_handling : ℤ
  logging_quality : ℤ
  dependency_health : ℤ
  findings : List Finding
deriving DecidableEq, Repr

/-- `schemas.Verdict`. -/
structure Verdict where
  type : String
  confidence : ℤ
deriving DecidableEq, Repr

/-! ## Data extractor (`server/v2/data_extractor.py`) -/

/-- `data_extractor.CommitInfo`. -/
structure CommitInfo where
  hash : String
  message : String
  author : String
  date : String
  files_changed : ℕ := 0
  additions : ℤ := 0
  deletions : ℤ := 0
deriving DecidableEq, Repr

/-- `data_extractor.RepoData` (the filesystem handle `repo_path` is dropped:
analyzers never touch it).  `files`, `file_importance` and `languages` are
insertion-ordered association lists modelling Python dicts. -/
structure RepoData where
  tree : List String := []
  files : List (String × String) := []
  file_importance : List (String × ℤ) := []
  commits : List CommitInfo := []
  languages : List (String × ℕ) := []
  dependencies : List String := []
  total_loc : ℕ := 0
deriving DecidableEq, Repr

/-- The empty repository snapshot: zero files, empty tree, no commits. -/
def emptyRepo : RepoData := {}

/-- `data_extractor.CODE_EXTENSIONS`. -/
def CODE_EXTENSIONS : List String :=
  [".py", ".js", ".ts", ".jsx", ".tsx",
   ".java", ".go", ".rb", ".rs",
   ".cpp", ".c", ".cs", ".h", ".hpp",
   ".php", ".swift", ".kt", ".scala",
   ".vue", ".svelte",
   ".sql", ".sh", ".bash"]

/-- `data_extractor.TEST_INDICATORS`. -/
def TEST_INDICATORS : List String :=
  ["test_", "_test.", ".test.", ".spec.",
   "/tests/", "/test/", "/__tests__/",
   "conftest.py", "pytest", "unittest"]

/-- `data_extractor.is_code_file`. -/
def is_code_file (file_path : String) : Bool :=
  pyEndsWithAny file_path CODE_EXTENSIONS

/-- `data_extractor.is_test_file`. -/
def is_test_file (file_path : String) : Bool :=
  TEST_INDICATORS.any (fun indicator => pyContains (pyLower file_path) indicator)

/-- Python `path.split("/")[-1]` (also `pathlib.Path(path).name` for the
forward-slash relative paths this repository produces). -/
def lastPathComponent (p : String) : String :=
  (pySplitChar '/' p).getLastD ""

/-- `_calculate_file_importance`: entry-point filenames. -/
def entry_points : List String :=
  ["main.py", "app.py", "server.py", "index.py", "run.py",
   "index.js", "index.ts", "app.js", "app.ts", "server.js", "server.ts",
   "main.go", "main.rs", "main.java", "program.cs"]

/-- `_calculate_file_importance`: core application directories. -/
def core_dirs : List String :=
  ["src", "api", "services", "core", "lib", "models", "controllers",
   "routes", "handlers", "middleware", "domain", "application"]

/-- `_calculate_file_importance`: config filenames (currently a no-op bonus). -/
def config_files : List String :=
  ["package.json", "pyproject.toml", "requirements.txt",
   "dockerfile", "docker-compose.yml", "docker-compose.yaml",
   ".env.example", "config.py", "settings.py", "config.js", "config.ts"]

/-- `_calculate_file_importance`: AI instruction files. -/
def ai_files : List String :=
  [".cursorrules", "claude.md", ".github/copilot-instructions.md"]

def importance_test_patterns : List String :=
  ["test_", "_test.", ".test.", ".spec.", "__tests__", "tests/", "spec/"]

def ui_patterns : List String :=
  ["components/ui/", "ui/components/", "/ui/", "shadcn"]

def util_patterns : List String :=
  ["/hooks/", "/utils/", "/helpers/", "/constants/", "/types/"]

def low_signal_patterns : List String :=
  ["config.js", "config.ts", ".config."]

/-- `data_extractor._calculate_file_importance(rel_path, file_size)`,
translated statement by statement (each `score += k` inside an `if` becomes
a conditional rebinding of `score`). -/
def calculate_file_importance (rel_path : String) (file_size : ℕ) : ℤ :=
  let score : ℤ := 50
  let filename := pyLower (lastPathComponent rel_path)
  let path_lower := pyLower rel_path
  let path_parts := pySplitChar '/' (pyLower rel_path)
  -- Entry points - highest priority
  let score := if entry_points.contains filename then score + 40 else score
  -- Core application directories
  let score := if core_dirs.any (fun d => path_parts.contains d) then score + 15 else score
  -- Backend/server code (often more complex logic)
  let score :=
    if path_parts.contains "server" ∨ path_parts.contains "backend" ∨ path_parts.contains "api"
    then score + 10 else score
  -- Config files: `score += 0` in the source ("no boost for now")
  let score := if config_files.contains filename then score + 0 else score
  -- AI instruction files
  let score :=
    if ai_files.contains filename ∨ ai_files.contains path_lower then score + 35 else score
  -- README
  let score := if pyStartsWith filename "readme" then score + 15 else score
  -- Meaningful size bonus (estimated_lines = file_size / 40, exact division)
  let estimated_lines : ℚ := (file_size : ℚ) / 40
  let score :=
    if 50 ≤ estimated_lines ∧ estimated_lines ≤ 500 then score + 20
    else if 20 ≤ estimated_lines ∧ estimated_lines < 50 then score + 10
    else if 500 < estimated_lines then score + 5
    else score
  -- Test files
  let score :=
    if importance_test_patterns.any (fun p => pyContains path_lower p) then score - 25 else score
  -- UI component libraries
  let score := if ui_patterns.any (fun p => pyContains path_lower p) then score - 35 else score
  -- Hooks, utils, helpers
  let score := if util_patterns.any (fun p => pyContains path_lower p) then score - 20 else score
  -- Low signal config
  let score :=
    if low_signal_patterns.any (fun p => pyContains filename p) then score - 15 else score
  -- Migration files
  let score := if pyContains path_lower "migration" then score - 30 else score
  -- Fixture/mock data
  let score :=
    if pyContains path_lower "fixture" ∨ pyContains path_lower "mock" then score - 30 else score
  score

/-! ### Git commit-log parsing (`data_extractor._get_git_commits`) -/

/-- One step of the parsing loop over the lines of `git log` output.
State: (commits emitted so far, commit currently being accumulated). -/
def gitLogStep (st : List CommitInfo × Option CommitInfo) (line : String) :
    List CommitInfo × Option CommitInfo :=
  if pyContains line "|||" then
    -- Save previous commit, then parse the new header line
    let commits := match st.2 with
      | some c => st.1 ++ [c]
      | none => st.1
    let parts := pySplitPipes line
    (commits, some {
      hash := parts.headD ""
      message := parts.getD 1 ""
      author := parts.getD 2 ""
      date := parts.getD 3 "" })
  else if pyStrip line ≠ "" then
    match st.2 with
    | some current =>
      -- numstat line: additions\tdeletions\tfilename
      let parts := pySplitChar '\t' line
      if parts.length ≥ 2 then
        let additions := if parts.headD "" = "-" then some 0 else pyIntOfStr (parts.headD "")
        let deletions := if parts.getD 1 "" = "-" then some 0 else pyIntOfStr (parts.getD 1 "")
        match additions, deletions with
        | some a, some d =>
          (st.1, some { current with
            files_changed := current.files_changed + 1
            additions := current.additions + a
            deletions := current.deletions + d })
        | _, _ => st  -- ValueError caught: pass
      else st
    | none => st
  else st

/-- The body of `_get_git_commits` after the subprocess call: parse the raw
stdout of `git log --pretty=format:%H|||%s|||%an|||%ad --numstat`. -/
def parseGitLog (stdout : String) : List CommitInfo :=
  let final := (pySplitChar '\n' stdout).foldl gitLogStep ([], none)
  match final.2 with
  | some c => final.1 ++ [c]
  | none => final.1

/-- `data_extractor._get_git_commits`, as a function of the subprocess
result (exit code and stdout).  A non-zero exit returns the (empty)
accumulator; `max_commits` bounds the `-N` argument passed to git. -/
def get_git_commits (returncode : ℤ) (stdout : String) : List CommitInfo :=
  if returncode ≠ 0 then [] else parseGitLog stdout

/-- Number of header (`|||`-delimited) lines in a `git log` output; git,
invoked with `-N`, emits at most `N` of these. -/
def headerLineCount (stdout : String) : ℕ :=
  ((pySplitChar '\n' stdout).filter (fun l => pyContains l "|||")).length

/-! ## Verdict combiner (`server/main.py::compute_verdict`) -/

/-- `main.compute_verdict`, translated branch by branch.  Python `//` is
floor division (`Int.fdiv`). -/
def compute_verdict (ai_score bad_practices_score quality_score : ℤ) : Verdict :=
  if ai_score ≥ 60 then
    if bad_practices_score ≥ 50 ∧ quality_score < 50 then
      { type := "Slop Coder"
        confidence := min 100 (60 + (ai_score - 60).fdiv 2 + (bad_practices_score - 50).fdiv 2
          + (50 - quality_score).fdiv 2) }
    else if bad_practices_score < 50 ∧ quality_score ≥ 50 then
      { type := "Good AI Coder"
        confidence := min 100 (60 + (ai_score - 60).fdiv 3 + (50 - bad_practices_score).fdiv 3
          + (quality_score - 50).fdiv 3) }
    else
      if quality_score ≥ 50 then
        { type := "Good AI Coder", confidence := 50 }
      else
        { type := "Slop Coder", confidence := 50 }
  else
    if bad_practices_score < 50 ∧ quality_score ≥ 50 then
      { type := "Senior"
        confidence := min 100 (60 + (60 - ai_score).fdiv 3 + (50 - bad_practices_score).fdiv 3
          + (quality_score - 50).fdiv 3) }
    else if bad_practices_score ≥ 50 ∧ quality_score < 50 then
      { type := "Junior"
        confidence := min 100 (60 + (bad_practices_score - 50).fdiv 2
          + (50 - quality_score).fdiv 2) }
    else
      if quality_score ≥ 50 then
        { type := "Senior", confidence := 50 }
      else
        { type := "Junior", confidence := 50 }

/-- The verdict label dictated by the specification's 8-row decision table,
as a function of the three booleans `(aiScore≥60, badPractices≥50,
quality≥50)`.  (Modelled from the spec, for the refinement claim C2.) -/
def verdictTableType (hiAI hiBad hiQuality : Bool) : String :=
  match hiAI, hiBad, hiQuality with
  | true,  true,  false => "Slop Coder"
  | true,  false, true  => "Good AI Coder"
  | false, false, true  => "Senior"
  | false, true,  false => "Junior"
  | true,  true,  true  => "Good AI Coder"
  | true,  false, false => "Slop Coder"
  | false, true,  true  => "Senior"
  | false, false, false => "Junior"

/-- The four "mixed signals" combinations of the specification's table. -/
def isMixedSignals (_hiAI hiBad hiQuality : Bool) : Bool :=
  (hiBad = hiQuality)

/-! ## Feature extractor (`server/v2/feature_extractor.py`) -/

/-- `feature_extractor.NamingStyle`. -/
inductive NamingStyle where
  | snake_case
  | camelCase
  | pascalCase
  | upperSnake
  | kebabCase
  | unknown
deriving DecidableEq, Repr

/-- `re.match(r'^[H][R]*$', s)` for the character classes used by
`detect_naming_style`, translated exactly: the pattern must consume the whole
string, except that `$` also matches just before a single trailing newline. -/
def reMatchClass (hd rest : Char → Bool) (s : String) : Bool :=
  let fits : List Char → Bool := fun l =>
    match l with
    | [] => false
    | c :: cs => hd c && cs.all rest
  fits s.data || (s.data.getLast? = some '\n' && fits s.data.dropLast)

/-- Python `str.isupper()`: at least one cased character and every cased
character uppercase (ASCII letters; the identifiers this is applied to are
captured by ASCII regex groups). -/
def pyIsUpper (s : String) : Bool :=
  s.data.any Char.isAlpha && s.data.all (fun c => !c.isAlpha || c.isUpper)

/-- `feature_extractor.detect_naming_style`, branch by branch. -/
def detect_naming_style (name : String) : NamingStyle :=
  if name = "" ∨ pyLen name < 2 then NamingStyle.unknown
  -- Skip dunder methods (__init__)
  else if pyStartsWith name "__" ∧ pyEndsWith name "__" then NamingStyle.unknown
  -- ^[A-Z][A-Z0-9_]*$
  else if reMatchClass Char.isUpper (fun c => c.isUpper || c.isDigit || c = '_') name then
    NamingStyle.upperSnake
  -- ^[A-Z][a-zA-Z0-9]*$ and not isupper()
  else if reMatchClass Char.isUpper (fun c => c.isAlpha || c.isDigit) name ∧ ¬ pyIsUpper name then
    NamingStyle.pascalCase
  -- ^[a-z][a-z0-9_]*$ and '_' in name
  else if reMatchClass Char.isLower (fun c => c.isLower || c.isDigit || c = '_') name
      ∧ pyContains name "_" then
    NamingStyle.snake_case
  -- ^[a-z][a-zA-Z0-9]*$ and any uppercase
  else if reMatchClass Char.isLower (fun c => c.isAlpha || c.isDigit) name
      ∧ name.data.any Char.isUpper then
    NamingStyle.camelCase
  -- ^[a-z][a-z0-9]*$ (lowercase without underscores counts as snake_case)
  else if reMatchClass Char.isLower (fun c => c.isLower || c.isDigit) name then
    NamingStyle.snake_case
  -- ^[a-z][a-z0-9-]*$ and '-' in name
  else if reMatchClass Char.isLower (fun c => c.isLower || c.isDigit || c = '-') name
      ∧ pyContains name "-" then
    NamingStyle.kebabCase
  else NamingStyle.unknown

/-- The five classifiable styles (the possible keys of the `style_counts`
dict in `calculate_consistency`). -/
def NAMING_STYLES_LIST : List NamingStyle :=
  [NamingStyle.snake_case, NamingStyle.camelCase, NamingStyle.pascalCase,
   NamingStyle.upperSnake, NamingStyle.kebabCase]

/-- `feature_extractor.calculate_consistency`.  The maximum of the
`style_counts` dict values equals the maximum of the per-style counts over
all five styles, since every style present in the dict has count ≥ 1 and the
styles list below is exhaustive. -/
def calculate_consistency (names : List String) : ℚ :=
  if names.isEmpty then 1  -- No names = perfectly consistent (vacuously true)
  else
    let styles := (names.map detect_naming_style).filter (fun st => st ≠ NamingStyle.unknown)
    let valid_count := styles.length
    if valid_count = 0 then 1  -- All unknown = can't measure
    else
      let max_count := (NAMING_STYLES_LIST.map (fun st => styles.count st)).foldl max 0
      (max_count : ℚ) / (valid_count : ℚ)

/-- `feature_extractor.ExtractedFeatures` (defaults as in the dataclass). -/
structure ExtractedFeatures where
  function_naming_consistency : ℚ := 0
  variable_naming_consistency : ℚ := 0
  class_naming_consistency : ℚ := 0
  constant_naming_consistency : ℚ := 0
  indentation_consistency : ℚ := 0
  avg_function_length : ℚ := 0
  avg_nesting_depth : ℚ := 0
  comment_ratio : ℚ := 0
  avg_function_name_length : ℚ := 0
  avg_variable_name_length : ℚ := 0
  max_function_length : ℕ := 0
  max_nesting_depth : ℕ := 0
  docstring_coverage : ℚ := 0
  redundant_comment_count : ℕ := 0
  files_processed : ℕ := 0
  total_functions : ℕ := 0
  total_variables : ℕ := 0
  total_classes : ℕ := 0
deriving DecidableEq, Repr

/-- `feature_extractor.FileFeatures`. -/
structure FileFeatures where
  language : String
  function_names : List String := []
  variable_names : List String := []
  class_names : List String := []
  constant_names : List String := []
  function_lengths : List ℕ := []
  nesting_depths : List ℕ := []
  indent_sizes : List ℕ := []
  total_lines : ℕ := 0
  comment_lines : ℕ := 0
  functions_with_docstrings : ℕ := 0
  total_functions : ℕ := 0
  redundant_comments : ℕ := 0
deriving DecidableEq, Repr

/-- Python `max(xs)` on a nonempty list of naturals (callers guard emptiness). -/
def listMax (xs : List ℕ) : ℕ := xs.foldl max 0

/-- Sum of naturals. -/
def listSum (xs : List ℕ) : ℕ := xs.foldl (· + ·) 0

/-- `feature_extractor.aggregate_features`, translated statement by
statement (the `extend` loops become `foldl (· ++ ·)` accumulations). -/
def aggregate_features (file_features_list : List FileFeatures) : ExtractedFeatures :=
  if file_features_list.isEmpty then {}
  else
    let all_function_names := file_features_list.foldl (fun acc ff => acc ++ ff.function_names) []
    let all_variable_names := file_features_list.foldl (fun acc ff => acc ++ ff.variable_names) []
    let all_class_names := file_features_list.foldl (fun acc ff => acc ++ ff.class_names) []
    let all_constant_names := file_features_list.foldl (fun acc ff => acc ++ ff.constant_names) []
    let all_function_lengths :=
      file_features_list.foldl (fun acc ff => acc ++ ff.function_lengths) []
    let all_nesting_depths := file_features_list.foldl (fun acc ff => acc ++ ff.nesting_depths) []
    let all_indent_sizes := file_features_list.foldl (fun acc ff => acc ++ ff.indent_sizes) []
    let total_lines := listSum (file_features_list.map (·.total_lines))
    let total_comment_lines := listSum (file_features_list.map (·.comment_lines))
    let total_functions := listSum (file_features_list.map (·.total_functions))
    let total_functions_with_docs :=
      listSum (file_features_list.map (·.functions_with_docstrings))
    let total_redundant_comments := listSum (file_features_list.map (·.redundant_comments))
    -- Indentation consistency: ratio of most common indent to total; the dict
    -- maximum equals the maximum over each element's multiplicity.
    let indentation_consistency : ℚ :=
      if ¬ all_indent_sizes.isEmpty then
        (listMax (all_indent_sizes.map (fun sz => all_indent_sizes.count sz)) : ℚ)
          / (all_indent_sizes.length : ℚ)
      else 1
    { files_processed := file_features_list.length
      total_functions := all_function_names.length
      total_variables := all_variable_names.length
      total_classes := all_class_names.length
      function_naming_consistency := calculate_consistency all_function_names
      variable_naming_consistency := calculate_consistency all_variable_names
      class_naming_consistency := calculate_consistency all_class_names
      constant_naming_consistency := calculate_consistency all_constant_names
      indentation_consistency := indentation_consistency
      avg_function_length :=
        if ¬ all_function_lengths.isEmpty then
          (listSum all_function_lengths : ℚ) / (all_function_lengths.length : ℚ)
        else 0
      max_function_length :=
        if ¬ all_function_lengths.isEmpty then listMax all_function_lengths else 0
      avg_nesting_depth :=
        if ¬ all_nesting_depths.isEmpty then
          (listSum all_nesting_depths : ℚ) / (all_nesting_depths.length : ℚ)
        else 0
      max_nesting_depth :=
        if ¬ all_nesting_depths.isEmpty then listMax all_nesting_depths else 0
      avg_function_name_length :=
        if ¬ all_function_names.isEmpty then
          (listSum (all_function_names.map pyLen) : ℚ) / (all_function_names.length : ℚ)
        else 0
      avg_variable_name_length :=
        if ¬ all_variable_names.isEmpty then
          (listSum (all_variable_names.map pyLen) : ℚ) / (all_variable_names.length : ℚ)
        else 0
      comment_ratio :=
        if total_lines > 0 then (total_comment_lines : ℚ) / (total_lines : ℚ) else 0
      docstring_coverage :=
        if total_functions > 0 then
          (total_functions_with_docs : ℚ) / (total_functions : ℚ)
        else 0
      redundant_comment_count := total_redundant_comments }

/-- `feature_extractor.SUPPORTED_LANGUAGES` (a set; only membership used). -/
def SUPPORTED_LANGUAGES : List String :=
  ["Python", "JavaScript", "TypeScript", "Java", "Go", "Ruby",
   "Rust", "C++", "C", "C#", "PHP", "Swift", "Kotlin", "Scala"]

/-- `data_extractor.EXTENSION_TO_LANGUAGE`, in dict insertion order. -/
def EXTENSION_TO_LANGUAGE : List (String × String) :=
  [(".py", "Python"), (".js", "JavaScript"), (".ts", "TypeScript"),
   (".jsx", "JavaScript"), (".tsx", "TypeScript"), (".java", "Java"),
   (".go", "Go"), (".rb", "Ruby"), (".rs", "Rust"), (".cpp", "C++"),
   (".c", "C"), (".cs", "C#"), (".h", "C"), (".hpp", "C++"), (".php", "PHP"),
   (".swift", "Swift"), (".kt", "Kotlin"), (".scala", "Scala"),
   (".vue", "Vue"), (".svelte", "Svelte"), (".sql", "SQL"), (".sh", "Shell"),
   (".bash", "Shell")]

/-- `feature_extractor.get_language_from_path`. -/
def get_language_from_path (file_path : String) : Option String :=
  (EXTENSION_TO_LANGUAGE.find? (fun el => pyEndsWith file_path el.1)).map (·.2)

/-- `feature_extractor.extract_features`, parameterized by the per-file
extractor.  `extract_file_features` (a large regex-driven routine whose
internals no claim depends on) is the parameter `extractor`, receiving the
file content and language exactly as at the call site; the `try/except` that
skips a file whose extraction raises is not modelled (the parameter is
total). -/
def extract_features (extractor : String → String → FileFeatures)
    (repo_data : RepoData) : ExtractedFeatures :=
  aggregate_features <| repo_data.files.filterMap fun fc =>
    match get_language_from_path fc.1 with
    | none => none
    | some language =>
      if language = "" ∨ ¬ SUPPORTED_LANGUAGES.contains language then none
      else some (extractor fc.2 language)

/-- `feature_extractor.features_to_dict` (dict in insertion order; ints cast
to ℚ for a uniform value type). -/
def features_to_dict (features : ExtractedFeatures) : List (String × ℚ) :=
  [("function_naming_consistency", pyRound3 features.function_naming_consistency),
   ("variable_naming_consistency", pyRound3 features.variable_naming_consistency),
   ("class_naming_consistency", pyRound3 features.class_naming_consistency),
   ("constant_naming_consistency", pyRound3 features.constant_naming_consistency),
   ("indentation_consistency", pyRound3 features.indentation_consistency),
   ("avg_function_length", pyRound2 features.avg_function_length),
   ("avg_nesting_depth", pyRound2 features.avg_nesting_depth),
   ("comment_ratio", pyRound3 features.comment_ratio),
   ("avg_function_name_length", pyRound2 features.avg_function_name_length),
   ("avg_variable_name_length", pyRound2 features.avg_variable_name_length),
   ("max_function_length", (features.max_function_length : ℚ)),
   ("max_nesting_depth", (features.max_nesting_depth : ℚ)),
   ("docstring_coverage", pyRound3 features.docstring_coverage),
   ("redundant_comment_count", (features.redundant_comment_count : ℚ))]

/-! ## Regex oracle

Every call into Python's `re` library is modelled by this abstract oracle.
Each call site passes the exact pattern string from the source; the flags at
the call site (`re.MULTILINE`, `re.IGNORECASE`) are noted in comments.  All
theorems in this development quantify over the oracle.  -/

structure ReOracle where
  /-- `re.finditer(pattern, text, flags)` as the list of `(start, end)` spans. -/
  finditer : String → String → List (ℕ × ℕ)
  /-- `re.search(pattern, text, flags)` as a match test. -/
  search : String → String → Bool
  /-- `re.match(pattern, text)` (anchored at the start) as a match test. -/
  rematch : String → String → Bool
  /-- `re.findall(pattern, text)` as the list of matched substrings. -/
  findall : String → String → List String

/-! ## AI slop analyzer (`server/v2/analyzers/ai_slop.py`) -/

/-- `classifier.ClassifierResult`. -/
structure ClassifierResult where
  ai_probability : ℚ
  confidence : String
  is_ai : Bool
deriving DecidableEq, Repr

def ML_WEIGHT : ℚ := 40/100

def HEURISTIC_WEIGHT : ℚ := 60/100

def COMMENT_RATIO_HIGH : ℚ := 30/100

def COMMENT_RATIO_MEDIUM : ℚ := 20/100

def REDUNDANT_COMMENT_HIGH : ℕ := 5

def REDUNDANT_COMMENT_MEDIUM : ℕ := 2

def AVG_VAR_NAME_LENGTH_HIGH : ℚ := 15

def AVG_VAR_NAME_LENGTH_MEDIUM : ℚ := 12

def AVG_FUNC_NAME_LENGTH_HIGH : ℚ := 20

def AVG_FUNC_NAME_LENGTH_MEDIUM : ℚ := 15

/-- `EMOJI_BONUS = 80`: bonus points if ANY emoji is found. -/
def EMOJI_BONUS : ℚ := 80

def REDUNDANT_COMMENT_PATTERNS : List (String × String) := [
  ("#\\s*(?:loop|iterate|iterating).*(?:through|over|the).*\\n\\s*for\\s", "Comment describes obvious loop"),
  ("#\\s*(?:for each|foreach).*\\n\\s*for\\s", "Comment describes obvious loop"),
  ("#\\s*(?:return|returns?)(?:\\s+the)?(?:\\s+\\w+)\x7b0,3\x7d\\s*\\n\\s*return\\s", "Comment describes obvious return statement"),
  ("#\\s*(?:initialize|init|set|create|declare).*(?:variable|var|value).*\\n\\s*\\w+\\s*=", "Comment describes obvious variable assignment"),
  ("#\\s*(?:set|assign).*to.*\\n\\s*\\w+\\s*=", "Comment describes obvious assignment"),
  ("#\\s*(?:check|if|whether).*\\n\\s*if\\s", "Comment describes obvious conditional"),
  ("#\\s*(?:call|invoke|execute).*(?:function|method|api).*\\n\\s*\\w+\\(", "Comment describes obvious function call"),
  ("#\\s*(?:increment|add one|increase).*\\n.*\\+\\s*=\\s*1", "Comment describes obvious increment"),
  ("#\\s*(?:decrement|subtract one|decrease).*\\n.*-\\s*=\\s*1", "Comment describes obvious decrement"),
  ("#\\s*(?:handle|catch).*(?:error|exception).*\\n\\s*(?:except|catch)", "Comment describes obvious error handling"),
  ("#\\s*(?:print|log|output).*\\n\\s*(?:print|console\\.log|logging\\.)", "Comment describes obvious print/log statement"),
  ("#\\s*(?:import|include).*(?:module|library|package).*\\n\\s*(?:import|from|require)", "Comment describes obvious import")
]

def JS_REDUNDANT_COMMENT_PATTERNS : List (String × String) := [
  ("//\\s*(?:loop|iterate|iterating).*(?:through|over|the).*\\n\\s*for\\s*\\(", "Comment describes obvious loop"),
  ("//\\s*(?:for each|foreach).*\\n\\s*(?:for|forEach)", "Comment describes obvious loop"),
  ("//\\s*(?:return|returns?)(?:\\s+the)?(?:\\s+\\w+)\x7b0,3\x7d\\s*\\n\\s*return\\s", "Comment describes obvious return statement"),
  ("//\\s*(?:initialize|init|set|create|declare).*(?:variable|var|value|const|let).*\\n\\s*(?:const|let|var)\\s", "Comment describes obvious variable declaration"),
  ("//\\s*(?:check|if|whether).*\\n\\s*if\\s*\\(", "Comment describes obvious conditional"),
  ("//\\s*(?:call|invoke|execute).*(?:function|method|api).*\\n\\s*(?:await\\s+)?\\w+\\(", "Comment describes obvious function call")
]

/-- Source: COMMON_EMOJIS (a Python set literal; iteration order of a set is
implementation-defined — modelled here in written order). -/
def COMMON_EMOJIS : List String := ["🔥", "💀", "😂", "🚀", "✨", "👍", "👎", "💯", "🙏", "❤️", "😊", "😎", "🤔", "🎉", "🎊", "💪", "🤖", "🧠", "💡", "⚡", "✅", "❌", "⭐", "🌟", "💥", "🔧", "🛠️", "📝", "📌", "🎯", "🚨", "⚠️", "💻", "🖥️", "📊", "📈", "🗂️", "📁", "🔒", "🔑", "👀", "🤩", "😍", "🥳", "🤯", "😱", "🤣", "😅", "🙄", "🤷"]

/-- Source text of EMOJI_PATTERN (the Python \U escapes denote the literal code points). -/
def EMOJI_PATTERN : String := "[😀-🙏🌀-🗿🚀-🛿🇠-🇿✂-➰]+"

def AI_INSTRUCTION_FILES : List String := [".cursorrules", "CLAUDE.md", ".github/copilot-instructions.md", "copilot-instructions.md", ".aider", "aider.conf"]

def DESIGN_DOC_PATTERNS : List String := ["docs?/.*(?:architecture|design|adr|decision).*\\.md$", "ARCHITECTURE\\.md$", "DESIGN\\.md$", "ADR[-_]?\\d+.*\\.md$"]

/-- `ai_slop.RedundantCommentFinding`. -/
structure RedundantCommentFinding where
  file_path : String
  line_number : ℕ
  snippet : String
  explanation : String
deriving DecidableEq, Repr

/-- `ai_slop.EmojiFinding`. -/
structure EmojiFinding where
  file_path : String
  line_number : ℕ
  emoji : String
  context : String
  snippet : String
deriving DecidableEq, Repr

/-- `AISlopAnalyzer._detect_redundant_comments`.  The regex `finditer` calls
(`re.MULTILINE | re.IGNORECASE` at this site) go through the oracle. -/
def detect_redundant_comments (re : ReOracle) (repo_data : RepoData) :
    List RedundantCommentFinding :=
  repo_data.files.foldl (fun findings fc =>
    let file_path := fc.1
    let content := fc.2
    if ¬ is_code_file file_path then findings
    else
      let patterns :=
        if pyEndsWith file_path ".py" then REDUNDANT_COMMENT_PATTERNS
        else if pyEndsWithAny file_path [".js", ".ts", ".jsx", ".tsx"] then
          JS_REDUNDANT_COMMENT_PATTERNS
        else REDUNDANT_COMMENT_PATTERNS  -- Python patterns as fallback
      patterns.foldl (fun findings pe =>
        (re.finditer pe.1 content).foldl (fun findings span =>
          let line_start := countNewlinesBefore content span.1 + 1
          let lines := pySplitChar '\n' content
          -- max(0, line_start - 1): line_start ≥ 1, so this is line_start - 1
          let snippet_start := line_start - 1
          let snippet_end := min lines.length (line_start + 4)
          let snippet := pyJoin "\n" (pyListSlice lines snippet_start snippet_end)
          let snippet := if pyLen snippet > 500 then pyTake snippet 500 ++ "..." else snippet
          findings ++ [{ file_path := file_path, line_number := line_start,
                         snippet := snippet, explanation := pe.2 }]) findings) findings) []

/-- `AISlopAnalyzer._detect_emojis`. -/
def detect_emojis (re : ReOracle) (repo_data : RepoData) : List EmojiFinding :=
  -- 1. Code files: emojis in comments and print statements
  let fileFindings := repo_data.files.foldl (fun findings fc =>
    let file_path := fc.1
    let content := fc.2
    if ¬ is_code_file file_path then findings
    else
      let lines := pySplitChar '\n' content
      lines.enum.foldl (fun findings il =>
        let line_num := il.1 + 1
        let line := il.2
        let emojis_found := re.findall EMOJI_PATTERN line
        let emojis_found :=
          if emojis_found.isEmpty then COMMON_EMOJIS.filter (fun e => pyContains line e)
          else emojis_found
        if ¬ emojis_found.isEmpty then
          let stripped := pyStrip line
          let context :=
            if pyStartsWith stripped "#" ∨ pyStartsWith stripped "//"
                ∨ pyStartsWith stripped "/*" then "comment"
            else if pyContains (pyLower line) "print" ∨ pyContains (pyLower line) "console.log"
                ∨ pyContains (pyLower line) "logger" then "print/log"
            else "code"
          let snippet_start := line_num - 1
          let snippet_end := min lines.length (line_num + 2)
          let snippet := pyJoin "\n" (pyListSlice lines snippet_start snippet_end)
          findings ++ [{ file_path := file_path, line_number := line_num,
                         emoji := emojis_found.headD "", context := context,
                         snippet := if pyLen snippet > 300 then pyTake snippet 300 else snippet }]
        else findings) findings) []
  -- 2. Commit messages
  repo_data.commits.foldl (fun findings commit =>
    let emojis_found := re.findall EMOJI_PATTERN commit.message
    let emojis_found :=
      if emojis_found.isEmpty then COMMON_EMOJIS.filter (fun e => pyContains commit.message e)
      else emojis_found
    if ¬ emojis_found.isEmpty then
      findings ++ [{ file_path := "[commit]", line_number := 0,
                     emoji := emojis_found.headD "", context := "commit",
                     snippet := pyTake commit.hash 7 ++ ": " ++ pyTake commit.message 100 }]
    else findings) fileFindings

/-- `AISlopAnalyzer._detect_positive_signals` (`re.search` with
`re.IGNORECASE` goes through the oracle). -/
def detect_positive_signals (re : ReOracle) (repo_data : RepoData) : List PositiveSignal :=
  let signals := AI_INSTRUCTION_FILES.foldl (fun signals ai_file =>
    if repo_data.files.any (fun fc => fc.1 = ai_file)
        ∨ repo_data.tree.any (fun path => pyContains path ai_file) then
      let sig : PositiveSignal :=
        { type := "ai_instruction_file", file := some ai_file,
          explanation :=
            "Has " ++ ai_file ++ " - indicates disciplined AI usage with custom instructions" }
      signals ++ [sig]
    else signals) []
  repo_data.tree.foldl (fun signals path =>
    -- the inner `break` emits at most one signal per path, with a fixed text
    if DESIGN_DOC_PATTERNS.any (fun pattern => re.search pattern path) then
      let sig : PositiveSignal :=
        { type := "design_docs", file := some path,
          explanation :=
            "Has architecture/design documentation - indicates thoughtful planning" }
      signals ++ [sig]
    else signals) signals

/-- `AISlopAnalyzer._calculate_score`, translated statement by statement.
The Python loop body updates the two accumulators `heuristic_score` and
`heuristic_signals` inside each `if`; they are embedded as parallel
conditional rebindings. -/
def calculate_score (classifier_result : ClassifierResult) (features : ExtractedFeatures)
    (redundant_count : ℕ) (has_emojis : Bool) : ℤ × Confidence :=
  -- ML component (0-1 probability -> 0-40 points)
  let ml_score : ℚ := classifier_result.ai_probability * 100 * ML_WEIGHT
  let heuristic_score : ℚ := 0
  let heuristic_signals : ℕ := 0
  -- Comment ratio signal (max 15 points)
  let hsc1 : ℚ :=
    if features.comment_ratio ≥ COMMENT_RATIO_HIGH then heuristic_score + 15
    else if features.comment_ratio ≥ COMMENT_RATIO_MEDIUM then heuristic_score + 8
    else heuristic_score
  let sig1 : ℕ :=
    if features.comment_ratio ≥ COMMENT_RATIO_HIGH then heuristic_signals + 1
    else if features.comment_ratio ≥ COMMENT_RATIO_MEDIUM then heuristic_signals + 1
    else heuristic_signals
  -- Redundant comments signal (max 20 points)
  let hsc2 : ℚ :=
    if redundant_count ≥ REDUNDANT_COMMENT_HIGH then hsc1 + 20
    else if redundant_count ≥ REDUNDANT_COMMENT_MEDIUM then hsc1 + 10
    else if redundant_count > 0 then hsc1 + 5
    else hsc1
  let sig2 : ℕ :=
    if redundant_count ≥ REDUNDANT_COMMENT_HIGH then sig1 + 1
    else if redundant_count ≥ REDUNDANT_COMMENT_MEDIUM then sig1 + 1
    else if redundant_count > 0 then sig1 + 1
    else sig1
  -- Variable name length signal (max 10 points)
  let hsc3 : ℚ :=
    if features.avg_variable_name_length ≥ AVG_VAR_NAME_LENGTH_HIGH then hsc2 + 10
    else if features.avg_variable_name_length ≥ AVG_VAR_NAME_LENGTH_MEDIUM then hsc2 + 5
    else hsc2
  let sig3 : ℕ :=
    if features.avg_variable_name_length ≥ AVG_VAR_NAME_LENGTH_HIGH then sig2 + 1
    else if features.avg_variable_name_length ≥ AVG_VAR_NAME_LENGTH_MEDIUM then sig2 + 1
    else sig2
  -- Function name length signal (max 10 points)
  let hsc4 : ℚ :=
    if features.avg_function_name_length ≥ AVG_FUNC_NAME_LENGTH_HIGH then hsc3 + 10
    else if features.avg_function_name_length ≥ AVG_FUNC_NAME_LENGTH_MEDIUM then hsc3 + 5
    else hsc3
  let sig4 : ℕ :=
    if features.avg_function_name_length ≥ AVG_FUNC_NAME_LENGTH_HIGH then sig3 + 1
    else if features.avg_function_name_length ≥ AVG_FUNC_NAME_LENGTH_MEDIUM then sig3 + 1
    else sig3
  -- High naming consistency can be AI signal (max 5 points)
  let avg_consistency : ℚ :=
    (features.function_naming_consistency + features.variable_naming_consistency) / 2
  let hsc5 : ℚ := if avg_consistency > 95/100 then hsc4 + 5 else hsc4
  let sig5 : ℕ := if avg_consistency > 95/100 then sig4 + 1 else sig4
  -- Combine scores
  let total_score := ml_score + hsc5
  -- Emoji bonus: +80 if ANY emoji found, applied AFTER combining ML + heuristics
  let total_score2 := if has_emojis then total_score + EMOJI_BONUS else total_score
  let sig6 := if has_emojis then sig5 + 1 else sig5
  -- Clamp to 0-100
  let final_score : ℤ := max 0 (min 100 (pythonRound total_score2))
  -- Confidence based on signal agreement
  let ml_says_ai := classifier_result.ai_probability > 1/2
  let heuristics_say_ai := hsc5 > 30
  let confidence :=
    if ml_says_ai = heuristics_say_ai then
      if sig6 ≥ 3 then Confidence.high else Confidence.medium
    else Confidence.low
  (final_score, confidence)

/-- `AISlopAnalyzer._build_style_features`. -/
def build_style_features (features : ExtractedFeatures) (redundant_count : ℕ) :
    StyleFeatures :=
  { function_naming_consistency := pyRound3 features.function_naming_consistency
    variable_naming_consistency := pyRound3 features.variable_naming_consistency
    class_naming_consistency := pyRound3 features.class_naming_consistency
    constant_naming_consistency := pyRound3 features.constant_naming_consistency
    indentation_consistency := pyRound3 features.indentation_consistency
    avg_function_length := pyRound2 features.avg_function_length
    avg_nesting_depth := pyRound2 features.avg_nesting_depth
    comment_ratio := pyRound3 features.comment_ratio
    avg_function_name_length := pyRound2 features.avg_function_name_length
    avg_variable_name_length := pyRound2 features.avg_variable_name_length
    max_function_length := features.max_function_length
    max_nesting_depth := features.max_nesting_depth
    docstring_coverage := pyRound3 features.docstring_coverage
    redundant_comment_count := redundant_count }

/-- The `grouped` dict of `_convert_to_findings`: group redundant-comment
findings by explanation, keys in first-occurrence order, values in
iteration order. -/
def groupByExplanation (fs : List RedundantCommentFinding) :
    List (String × List RedundantCommentFinding) :=
  fs.foldl (fun acc f =>
    if acc.any (fun g => g.1 = f.explanation) then
      acc.map (fun g => if g.1 = f.explanation then (g.1, g.2 ++ [f]) else g)
    else acc ++ [(f.explanation, [f])]) []

/-- `AISlopAnalyzer._convert_to_findings`. -/
def convert_to_findings (redundant_findings : List RedundantCommentFinding)
    (emoji_findings : List EmojiFinding) : List Finding :=
  let findings : List Finding := []
  -- 1. Redundant comments, grouped by explanation type
  let findings :=
    if ¬ redundant_findings.isEmpty then
      findings ++ (groupByExplanation redundant_findings).map (fun g =>
        let explanation := g.1
        let group := g.2
        let first := group.headD { file_path := "", line_number := 0, snippet := "",
                                   explanation := "" }
        let occurrences := group.map (fun f => f.file_path ++ ":" ++ natStr f.line_number)
        let snippet := pyJoin ", " (occurrences.take 5)
        let snippet :=
          if occurrences.length > 5 then
            snippet ++ " ... and " ++ natStr (occurrences.length - 5) ++ " more"
          else snippet
        { type := "redundant_comment", severity := Severity.warning,
          file := "Multiple files, first occurrence at " ++ first.file_path,
          line := first.line_number, snippet := snippet,
          explanation := explanation ++ " (found " ++ natStr group.length ++ " occurrences)" })
    else findings
  -- 2. Emojis, aggregated into a single finding
  if ¬ emoji_findings.isEmpty then
    let first := emoji_findings.headD { file_path := "", line_number := 0, emoji := "",
                                        context := "", snippet := "" }
    let contexts := emoji_findings.foldl (fun acc f =>
      if acc.any (fun p => p.1 = f.context) then
        acc.map (fun p => if p.1 = f.context then (p.1, p.2 + 1) else p)
      else acc ++ [(f.context, 1)]) ([] : List (String × ℕ))
    let unique_emojis := dedup (emoji_findings.map (fun f => f.emoji))
    let occurrences := (emoji_findings.take 5).map (fun f =>
      if f.context ≠ "commit" then
        f.file_path ++ ":" ++ natStr f.line_number ++ " (" ++ f.emoji ++ ")"
      else "commit " ++ pyTake f.snippet 40 ++ "... (" ++ f.emoji ++ ")")
    let snippet := pyJoin "\n" occurrences
    let snippet :=
      if emoji_findings.length > 5 then
        snippet ++ "\n... and " ++ natStr (emoji_findings.length - 5) ++ " more"
      else snippet
    let context_summary := pyJoin ", " (contexts.map (fun p => natStr p.2 ++ " in " ++ p.1))
    let emoji_display := pyJoin " " ((pySorted unique_emojis).take 10)
    let emoji_display :=
      if unique_emojis.length > 10 then
        emoji_display ++ " ... and " ++ natStr (unique_emojis.length - 10) ++ " more"
      else emoji_display
    let emojiFinding : Finding :=
      { type := "emoji_in_code", severity := Severity.critical,
        file :=
          if first.context ≠ "commit" then "Multiple locations, first at " ++ first.file_path
          else "[commit messages]",
        line := if first.context ≠ "commit" then first.line_number else 0,
        snippet := snippet,
        explanation := "Emojis found in code: " ++ emoji_display ++ ". Distribution: "
          ++ context_summary ++ ". Total: " ++ natStr emoji_findings.length
          ++ " occurrences. Real developers don\x27t put 🔥 and 🚀 in production code." }
    findings ++ [emojiFinding]
  else findings

/-- `AISlopAnalyzer.analyze`.  The trained classifier (`self.classifier`,
an external joblib artifact) is the abstract parameter `predict`, applied to
`features_to_dict(features)` exactly as at the source call site. -/
def ai_slop_analyze (re : ReOracle) (predict : List (String × ℚ) → ClassifierResult)
    (repo_data : RepoData) (features : ExtractedFeatures) : AISlop :=
  let features_dict := features_to_dict features
  let classifier_result := predict features_dict
  let redundant_findings := detect_redundant_comments re repo_data
  let emoji_findings := detect_emojis re repo_data
  let positive_signals := detect_positive_signals re repo_data
  let sc := calculate_score classifier_result features redundant_findings.length
    (emoji_findings.length > 0)
  let style_features := build_style_features features redundant_findings.length
  let negative_signals := convert_to_findings redundant_findings emoji_findings
  { score := sc.1, confidence := sc.2, style_features := style_features,
    negative_ai_signals := negative_signals, positive_ai_signals := positive_signals }

/-! ## Bad practices analyzer (`server/v2/analyzers/bad_practices.py`) -/

/-- `bad_practices.SEVERITY_WEIGHTS` (the dict's `.get(sev, 5)` default is
unreachable: `Severity` has exactly the three keys below). -/
def severity_weight : Severity → ℕ
  | Severity.critical => 60
  | Severity.warning => 20
  | Severity.info => 5

/-- `bad_practices.MAX_SCORE`. -/
def MAX_SCORE : ℕ := 100

/-- `bad_practices.DetectionPattern`. -/
structure DetectionPattern where
  name : String
  category : String
  severity : Severity
  pattern : String
  file_pattern : Option String
  explanation : String
  negative_pattern : Option String := none
deriving DecidableEq, Repr

def SECURITY_PATTERNS : List DetectionPattern := [
  { name := "sql_injection_risk", category := "security", severity := Severity.critical,
    pattern := "(?:execute|cursor\\.execute|query|raw_query)\\s*\\(\\s*(?:f[\"\\\x27]|[\"\\\x27][^\"\\\x27]*\\.format\\s*\\(|[\"\\\x27][^\"\\\x27]*\\\"\\s*\\+)",
    file_pattern := none,
    explanation := "SQL query built with string concatenation/formatting - vulnerable to SQL injection. Use parameterized queries instead.",
    negative_pattern := none },
  { name := "sql_injection_risk", category := "security", severity := Severity.critical,
    pattern := "(?:SELECT|INSERT|UPDATE|DELETE|FROM|WHERE)[^\"\\\x27]*\\\"\\s*\\+\\s*(?:request|params|user|input|data|body)",
    file_pattern := none,
    explanation := "SQL query concatenated with user input - vulnerable to SQL injection.",
    negative_pattern := none },
  { name := "hardcoded_secret", category := "security", severity := Severity.critical,
    pattern := "(?:api[_-]?key|secret[_-]?key|password|passwd|token|auth[_-]?token|private[_-]?key)\\s*[=:]\\s*[\"\\\x27][^\"\\\x27]\x7b8,\x7d[\"\\\x27]",
    file_pattern := none,
    explanation := "Hardcoded secret/API key detected. Use environment variables instead.",
    negative_pattern := some "(?:example|placeholder|your[_-]?|xxx|test|dummy|fake|sample)" },
  { name := "hardcoded_secret", category := "security", severity := Severity.critical,
    pattern := "[\"\\\x27](?:sk-|pk_live_|sk_live_|ghp_|gho_|github_pat_|xox[baprs]-|AKIA)[a-zA-Z0-9]\x7b10,\x7d[\"\\\x27]",
    file_pattern := none,
    explanation := "Hardcoded API key pattern detected (OpenAI, Stripe, GitHub, Slack, AWS). Use environment variables.",
    negative_pattern := none },
  { name := "cors_wildcard", category := "security", severity := Severity.warning,
    pattern := "(?:Access-Control-Allow-Origin|cors.*origin|allow_origin)\\s*[=:]\\s*[\"\\\x27]?\\*[\"\\\x27]?",
    file_pattern := none,
    explanation := "CORS wildcard (*) allows any origin - restrict to specific domains in production.",
    negative_pattern := none },
  { name := "cors_wildcard", category := "security", severity := Severity.warning,
    pattern := "CORS\\s*\\(\\s*(?:app|application)?\\s*(?:,\\s*)?(?:origins?\\s*=\\s*)?[\"\\\x27]?\\*[\"\\\x27]?",
    file_pattern := none,
    explanation := "CORS configured to allow all origins - restrict to specific domains.",
    negative_pattern := none },
  { name := "no_input_validation", category := "security", severity := Severity.warning,
    pattern := "def\\s+(?:post|put|patch|create|update|delete)\\w*\\s*\\([^)]*(?:request|data|body|payload)[^)]*\\):\\s*\\n(?:\\s*[\"\\\x27].*[\"\\\x27])?(?:\\s*#.*)?\\s*\\n\\s*(?:\\w+\\.(?:save|create|update|insert|execute)|db\\.)",
    file_pattern := none,
    explanation := "User input passed directly to database without validation.",
    negative_pattern := none },
  { name := "dangerous_eval", category := "security", severity := Severity.critical,
    pattern := "(?:eval|exec|compile)\\s*\\(\\s*(?:request|params|input|data|user|body|f[\"\\\x27]|.*\\+)",
    file_pattern := none,
    explanation := "eval/exec with potentially user-controlled input - major security risk.",
    negative_pattern := none },
  { name := "ssl_disabled", category := "security", severity := Severity.warning,
    pattern := "verify\\s*=\\s*False|ssl\\s*=\\s*False|check_hostname\\s*=\\s*False",
    file_pattern := none,
    explanation := "SSL verification disabled - vulnerable to man-in-the-middle attacks.",
    negative_pattern := none }
]

def ROBUSTNESS_PATTERNS : List DetectionPattern := [
  { name := "no_timeout", category := "robustness", severity := Severity.warning,
    pattern := "requests\\.(?:get|post|put|patch|delete|head)\\s*\\([^)]*\\)(?!.*timeout)",
    file_pattern := some "*.py",
    explanation := "HTTP request without timeout - can hang indefinitely if server doesn\x27t respond.",
    negative_pattern := some "timeout\\s*=" },
  { name := "no_timeout", category := "robustness", severity := Severity.warning,
    pattern := "fetch\\s*\\([^)]+\\)(?!.*signal|.*timeout|.*AbortController)",
    file_pattern := some "*.\x7bjs,ts,jsx,tsx\x7d",
    explanation := "Fetch request without timeout/abort signal - can hang indefinitely.",
    negative_pattern := none },
  { name := "no_timeout", category := "robustness", severity := Severity.warning,
    pattern := "axios\\.(?:get|post|put|patch|delete)\\s*\\([^)]*\\)(?!.*timeout)",
    file_pattern := some "*.\x7bjs,ts,jsx,tsx\x7d",
    explanation := "Axios request without timeout - can hang indefinitely.",
    negative_pattern := some "timeout\\s*[:=]" },
  { name := "silent_error", category := "robustness", severity := Severity.warning,
    pattern := "except(?:\\s+\\w+)?:\\s*\\n\\s*(?:pass|\\.\\.\\.)\\s*(?:\\n|$)",
    file_pattern := some "*.py",
    explanation := "Empty except block silently swallows errors - at minimum, log the error.",
    negative_pattern := none },
  { name := "silent_error", category := "robustness", severity := Severity.warning,
    pattern := "catch\\s*\\([^)]*\\)\\s*\\\x7b\\s*\\\x7d",
    file_pattern := some "*.\x7bjs,ts,jsx,tsx\x7d",
    explanation := "Empty catch block silently swallows errors - at minimum, log the error.",
    negative_pattern := none },
  { name := "bare_except", category := "robustness", severity := Severity.info,
    pattern := "except\\s*:\\s*\\n",
    file_pattern := some "*.py",
    explanation := "Bare \x27except:\x27 catches all exceptions including KeyboardInterrupt. Use \x27except Exception:\x27 instead.",
    negative_pattern := none },
  { name := "unhandled_file_error", category := "robustness", severity := Severity.info,
    pattern := "^\\s*(?:data|content|text|file_content)\\s*=\\s*open\\s*\\([^)]+\\)\\.read\\(\\)",
    file_pattern := some "*.py",
    explanation := "File read without \x27with\x27 context manager - use \x27with open(...) as f:\x27 for proper cleanup.",
    negative_pattern := none }
]

def HYGIENE_PATTERNS : List DetectionPattern := [
  { name := "commented_code", category := "hygiene", severity := Severity.info,
    pattern := "#\\s*(?:def |class |if |for |while |return |import ).*\\n(?:#.*\\n)\x7b2,\x7d",
    file_pattern := some "*.py",
    explanation := "Large block of commented-out code - remove dead code to improve maintainability.",
    negative_pattern := none },
  { name := "commented_code", category := "hygiene", severity := Severity.info,
    pattern := "//\\s*(?:function |const |let |var |if |for |while |return |import ).*\\n(?://.*\\n)\x7b2,\x7d",
    file_pattern := some "*.\x7bjs,ts,jsx,tsx\x7d",
    explanation := "Large block of commented-out code - remove dead code to improve maintainability.",
    negative_pattern := none },
  { name := "todo_comment", category := "hygiene", severity := Severity.info,
    pattern := "(?:#|//)\\s*(?:TODO|FIXME|HACK|XXX|BUG)\\s*[:\\s]",
    file_pattern := none,
    explanation := "TODO/FIXME comment indicates unfinished work.",
    negative_pattern := none },
  { name := "debug_enabled", category := "hygiene", severity := Severity.warning,
    pattern := "(?:DEBUG|TESTING)\\s*=\\s*True",
    file_pattern := some "*.py",
    explanation := "Debug flag enabled in code - should be False or controlled via environment.",
    negative_pattern := none },
  { name := "debug_enabled", category := "hygiene", severity := Severity.warning,
    pattern := "(?:debug|testing)\\s*[=:]\\s*true",
    file_pattern := some "*.\x7bjs,ts,jsx,tsx,json\x7d",
    explanation := "Debug flag enabled in code - should be controlled via environment.",
    negative_pattern := none }
]

/-- `BadPracticesAnalyzer.__init__`: `self.all_patterns`. -/
def ALL_PATTERNS : List DetectionPattern :=
  SECURITY_PATTERNS ++ ROBUSTNESS_PATTERNS ++ HYGIENE_PATTERNS

/-- Python `s[2:]`. -/
def pyDrop (s : String) (n : ℕ) : String := ⟨s.data.drop n⟩

/-- `BadPracticesAnalyzer._file_matches_pattern`. -/
def file_matches_pattern (file_path : String) (file_pattern : Option String) : Bool :=
  match file_pattern with
  | none => is_code_file file_path
  | some fp =>
    if pyStartsWith fp "*." then
      let extensions := pyDrop fp 2
      if pyStartsWith extensions "\x7b" ∧ pyEndsWith extensions "\x7d" then
        -- Multiple extensions: *.{js,ts,jsx,tsx}
        let ext_list := pySplitChar ',' ⟨(extensions.data.drop 1).dropLast⟩
        ext_list.any (fun ext => pyEndsWith file_path ("." ++ pyStrip ext))
      else
        -- Single extension: *.py
        pyEndsWith file_path ("." ++ extensions)
    else true

/-- `BadPracticesAnalyzer._get_category` (the three loops over the pattern
tables, in order, then the special cases, then the default). -/
def get_category (finding_type : String) : String :=
  if SECURITY_PATTERNS.any (fun p => p.name = finding_type) then "security"
  else if ROBUSTNESS_PATTERNS.any (fun p => p.name = finding_type) then "robustness"
  else if HYGIENE_PATTERNS.any (fun p => p.name = finding_type) then "hygiene"
  else if finding_type = "env_committed" ∨ finding_type = "no_gitignore" then "hygiene"
  else "hygiene"

/-- `BadPracticesAnalyzer._analyze_file` (`re.finditer` with
`re.MULTILINE | re.IGNORECASE`, and `re.search` with `re.IGNORECASE` for
negative patterns, via the oracle). -/
def analyze_file (re : ReOracle) (file_path content : String) : List Finding :=
  let file_is_test := is_test_file file_path
  ALL_PATTERNS.foldl (fun findings pattern =>
    if ¬ file_matches_pattern file_path pattern.file_pattern then findings
    -- Skip hygiene checks in test files (print statements OK in tests)
    else if file_is_test ∧ pattern.category = "hygiene" then findings
    else
      (re.finditer pattern.pattern content).foldl (fun findings span =>
        let negHit :=
          match pattern.negative_pattern with
          | none => false
          | some np =>
            let match_text := pySlice content span.1 span.2
            if re.search np match_text then true
            else
              -- surrounding context: max(0, start-500) .. min(len, end+500)
              let start_pos := span.1 - 500
              let end_pos := min (pyLen content) (span.2 + 500)
              let context := pySlice content start_pos end_pos
              re.search np context
        if negHit then findings
        else
          let line_number := countNewlinesBefore content span.1 + 1
          let lines := pySplitChar '\n' content
          -- max(0, line_number - 1): line_number ≥ 1
          let snippet_start := line_number - 1
          let snippet_end := min lines.length (line_number + 4)
          let snippet := pyJoin "\n" (pyListSlice lines snippet_start snippet_end)
          let snippet := if pyLen snippet > 500 then pyTake snippet 500 ++ "..." else snippet
          let f : Finding :=
            { type := pattern.name, severity := pattern.severity, file := file_path,
              line := line_number, snippet := snippet, explanation := pattern.explanation }
          findings ++ [f]) findings) []

/-- Python `s.rsplit(':', 1)` (callers guarantee a colon is present). -/
def rsplitColon1 (s : String) : String × String :=
  let parts := pySplitChar ':' s
  (pyJoin ":" parts.dropLast, parts.getLastD "")

/-- `BadPracticesAnalyzer._check_print_statements`. -/
def check_print_statements (re : ReOracle) (repo_data : RepoData) : List Finding :=
  let print_occurrences := repo_data.files.foldl (fun occ fc =>
    let file_path := fc.1
    let content := fc.2
    if is_test_file file_path then occ
    else
      let lines := pySplitChar '\n' content
      if pyEndsWith file_path ".py" then
        lines.enum.foldl (fun occ il =>
          let stripped := pyStrip il.2
          if pyStartsWith stripped "#" then occ
          else if re.rematch "^\\s*print\\s*\\(" il.2 then
            occ ++ [file_path ++ ":" ++ natStr (il.1 + 1)]
          else occ) occ
      else if pyEndsWithAny file_path [".js", ".ts", ".jsx", ".tsx"] then
        lines.enum.foldl (fun occ il =>
          let stripped := pyStrip il.2
          if pyStartsWith stripped "//" then occ
          else if pyContains il.2 "console.log(" then
            occ ++ [file_path ++ ":" ++ natStr (il.1 + 1)]
          else occ) occ
      else occ) []
  if print_occurrences.length ≥ 3 then  -- Threshold: 3+ to flag
    let fl := rsplitColon1 (print_occurrences.headD "")
    let examples_str := pyJoin ", " (print_occurrences.take 3)
    let examples_str :=
      if print_occurrences.length > 3 then
        examples_str ++ " ... and " ++ natStr (print_occurrences.length - 3) ++ " more"
      else examples_str
    let f : Finding :=
      { type := "print_statements", severity := Severity.info,
        file := "Multiple files, first occurrence at " ++ fl.1,
        -- int(first_line): the string was built as `natStr`, so parsing succeeds
        line := ((pyIntOfStr fl.2).getD 0).toNat,
        snippet := examples_str,
        explanation := "Found " ++ natStr print_occurrences.length
          ++ " print/console.log statements across the codebase. Consider using proper logging for production." }
    [f]
  else []

def env_files : List String := [".env", ".env.local", ".env.production", ".env.development"]

/-- `BadPracticesAnalyzer._check_env_committed`. -/
def check_env_committed (repo_data : RepoData) : List Finding :=
  repo_data.tree.foldl (fun findings path =>
    let filename := lastPathComponent path
    if env_files.contains filename ∧ filename ≠ ".env.example" then
      let f : Finding :=
        { type := "env_committed", severity := Severity.critical, file := path, line := 1,
          snippet := "File: " ++ path,
          explanation := filename
            ++ " appears to be committed to the repository. This may expose secrets. Add to .gitignore." }
      findings ++ [f]
    else findings) []

/-- `BadPracticesAnalyzer._check_gitignore_issues`. -/
def check_gitignore_issues (repo_data : RepoData) : List Finding :=
  let has_gitignore := repo_data.tree.any (fun path => pyContains path ".gitignore")
  if ¬ has_gitignore ∧ repo_data.tree.length > 5 then
    [{ type := "no_gitignore", severity := Severity.warning, file := ".gitignore", line := 1,
       snippet := "(missing file)",
       explanation := "No .gitignore file found - sensitive files may accidentally be committed." }]
  else []

/-- `BadPracticesAnalyzer._calculate_score`:
`min(Σ severity_weight, MAX_SCORE)`. -/
def bp_calculate_score (findings : List Finding) : ℕ :=
  let total_weight := findings.foldl (fun acc f => acc + severity_weight f.severity) 0
  min total_weight MAX_SCORE

/-- `BadPracticesAnalyzer.analyze`. -/
def bad_practices_analyze (re : ReOracle) (repo_data : RepoData) : BadPractices :=
  let findings := repo_data.files.foldl (fun fs fc => fs ++ analyze_file re fc.1 fc.2) []
  let findings := findings ++ check_env_committed repo_data
  let findings := findings ++ check_gitignore_issues repo_data
  let findings := findings ++ check_print_statements re repo_data
  let security_count := (findings.filter (fun f => get_category f.type = "security")).length
  let robustness_count := (findings.filter (fun f => get_category f.type = "robustness")).length
  let hygiene_count := (findings.filter (fun f => get_category f.type = "hygiene")).length
  let score := bp_calculate_score findings
  { score := (score : ℤ), security_issues := security_count,
    robustness_issues := robustness_count, hygiene_issues := hygiene_count,
    findings := findings }

/-! ## Code quality analyzer (`server/v2/analyzers/code_quality.py`) -/

/-- `code_quality.METRIC_WEIGHTS` (exact rationals; the six weights sum to 1). -/
def METRIC_WEIGHTS : List (String × ℚ) :=
  [("files_organized", 15/100), ("test_coverage", 20/100), ("readme_quality", 15/100),
   ("error_handling", 20/100), ("logging_quality", 10/100), ("dependency_health", 20/100)]

def metricWeight (k : String) : ℚ :=
  ((METRIC_WEIGHTS.find? (fun p => p.1 = k)).map (fun p => p.2)).getD 0

/-- `code_quality.README_REQUIRED_SECTIONS`. -/
def README_REQUIRED_SECTIONS : List (String × String) :=
  [("#.*install|getting started|setup|quick start", "Installation/Setup section"),
   ("#.*usage|how to use|example", "Usage/Examples section")]

/-- `code_quality.README_BONUS_SECTIONS`. -/
def README_BONUS_SECTIONS : List (String × String) :=
  [("#.*api|endpoint|reference", "API documentation"),
   ("#.*contribut", "Contributing guidelines"),
   ("#.*test", "Testing instructions"),
   ("#.*licen[sc]e", "License section"),
   ("#.*requirements|prerequisites|dependencies", "Requirements section")]

/-- `code_quality.GOOD_STRUCTURE_PATTERNS`. -/
def GOOD_STRUCTURE_PATTERNS : List String :=
  ["src/", "lib/", "app/", "tests/", "test/", "__tests__/", "docs/", "scripts/",
   "utils/", "helpers/", "components/", "services/", "models/", "views/",
   "controllers/", "api/", "routes/", "middleware/", "config/"]

/-- Python `s.rstrip("/")`. -/
def rstripSlash (s : String) : String :=
  ⟨(s.data.reverse.dropWhile (fun c => c = '/')).reverse⟩

/-- `CodeQualityAnalyzer._analyze_organization`. -/
def analyze_organization (repo_data : RepoData) : ℤ × List Finding :=
  let findings : List Finding := []
  let score : ℤ := 100
  let tree := repo_data.tree
  -- Count code files in root vs subdirectories
  let root_code_files := tree.filter (fun p => is_code_file p ∧ ¬ pyContains p "/")
  let organized_files := tree.filter (fun p => is_code_file p ∧ pyContains p "/")
  let total_code_files := root_code_files.length + organized_files.length
  if total_code_files = 0 then (50, findings)  -- No code files, neutral score
  else
    let root_ratio : ℚ :=
      if total_code_files > 0 then (root_code_files.length : ℚ) / (total_code_files : ℚ) else 0
    let sf :=
      if root_ratio > 1/2 ∧ total_code_files > 3 then
        let f : Finding :=
          { type := "flat_structure", severity := Severity.warning, file := "(project root)",
            line := 1,
            snippet := "Root files: " ++ pyJoin ", " (root_code_files.take 5)
              ++ (if root_code_files.length > 5 then "..." else ""),
            explanation := natStr root_code_files.length ++ "/" ++ natStr total_code_files
              ++ " code files are in the root directory. Consider organizing into src/, lib/, or feature-based folders." }
        (score - 25, findings ++ [f])
      else (score, findings)
    -- Check for good directory structure
    let has_structure_dirs := GOOD_STRUCTURE_PATTERNS.foldl (fun acc pattern =>
      if tree.any (fun path => pyContains path pattern) then acc ++ [rstripSlash pattern]
      else acc) []
    let sf :=
      if has_structure_dirs.length ≥ 3 then (min 100 (sf.1 + 10), sf.2)
      else if has_structure_dirs.length = 0 ∧ total_code_files > 5 then
        let f : Finding :=
          { type := "no_structure", severity := Severity.info, file := "(project root)",
            line := 1, snippet := "No standard directories found",
            explanation := "No common project structure patterns detected (src/, tests/, lib/, etc.). Consider organizing code into logical directories." }
        (sf.1 - 15, sf.2 ++ [f])
      else sf
    -- Check for god files (> 500 LOC)
    let sf := repo_data.files.foldl (fun sf fc =>
      if ¬ is_code_file fc.1 then sf
      else
        let loc := (pySplitChar '\n' fc.2).length
        if loc > 500 then
          let f : Finding :=
            { type := "god_file", severity := Severity.warning, file := fc.1, line := 1,
              snippet := "File has " ++ natStr loc ++ " lines of code",
              explanation := "Large file with " ++ natStr loc
                ++ " LOC. Consider breaking into smaller, focused modules." }
          (sf.1 - 10, sf.2 ++ [f])
        else sf) sf
    (max 0 (min 100 sf.1), sf.2)

def test_configs : List String :=
  ["pytest.ini", "setup.cfg", "pyproject.toml",
   "jest.config.js", "jest.config.ts", "jest.config.json",
   "vitest.config.ts", "vitest.config.js",
   "karma.conf.js", ".mocharc.js", ".mocharc.json"]

/-- Python `str(i)` for an integer. -/
def intStr (i : ℤ) : String := if i < 0 then "-" ++ natStr i.natAbs else natStr i.natAbs

/-- `CodeQualityAnalyzer._analyze_test_coverage`. -/
def analyze_test_coverage (repo_data : RepoData) : ℤ × List Finding :=
  let tree := repo_data.tree
  let test_files := tree.filter (fun p => is_code_file p ∧ is_test_file p)
  let source_files := tree.filter (fun p => is_code_file p ∧ ¬ is_test_file p)
  let total_source := source_files.length
  let total_tests := test_files.length
  if total_source = 0 then (50, [])  -- No source files
  else
    let test_ratio : ℚ :=
      if total_source > 0 then (total_tests : ℚ) / (total_source : ℚ) else 0
    let sf : ℤ × List Finding :=
      if total_tests = 0 then
        let f : Finding :=
          { type := "no_tests", severity := Severity.warning, file := "(project)", line := 1,
            snippet := "No test files found",
            explanation := "No test files detected. Tests are essential for code reliability and maintainability." }
        (0, [f])
      else if test_ratio < 1/10 then
        -- {test_ratio:.0%} formats as a half-even-rounded整 percentage
        let f : Finding :=
          { type := "low_test_coverage", severity := Severity.info, file := "(project)",
            line := 1,
            snippet := natStr total_tests ++ " test files for " ++ natStr total_source
              ++ " source files",
            explanation := "Low test coverage: " ++ intStr (pythonRound (test_ratio * 100))
              ++ "% test-to-source ratio. Aim for at least 30%." }
        (20, [f])
      else if test_ratio < 3/10 then (50, [])
      else if test_ratio < 1/2 then (70, [])
      else if test_ratio < 8/10 then (85, [])
      else (100, [])
    let has_test_config := tree.any (fun path => test_configs.any (fun cfg => pyContains path cfg))
    let score := if has_test_config ∧ total_tests > 0 then min 100 (sf.1 + 10) else sf.1
    (max 0 (min 100 score), sf.2)

/-- `CodeQualityAnalyzer._analyze_readme` (`re.search(…, re.IGNORECASE)` via
the oracle).  Note `endswith((".md", ".rst", ".txt", ""))` always holds: the
empty suffix matches every string, exactly as in Python. -/
def analyze_readme (re : ReOracle) (repo_data : RepoData) : ℤ × List Finding :=
  let readmeFC := repo_data.files.find? (fun fc =>
    pyContains (pyLower fc.1) "readme" ∧ pyEndsWithAny (pyLower fc.1) [".md", ".rst", ".txt", ""])
  match readmeFC with
  | none =>
    -- Also check tree for README if not in files
    match repo_data.tree.find? (fun path => pyContains (pyLower path) "readme") with
    | none =>
      let f : Finding :=
        { type := "no_readme", severity := Severity.warning, file := "README.md", line := 1,
          snippet := "(missing file)",
          explanation := "No README file found. A README is essential for project documentation." }
      (0, [f])
    | some _ => (30, [])  -- README exists in tree but wasn't read
  | some fc =>
    let readme_path := fc.1
    let readme_content := fc.2
    let score : ℤ := 30  -- Base score for having a README
    let readme_lower := pyLower readme_content
    let word_count := (pySplitWS readme_content).length
    let sf : ℤ × List Finding :=
      if word_count < 50 then
        let f : Finding :=
          { type := "sparse_readme", severity := Severity.info, file := readme_path, line := 1,
            snippet := "README has " ++ natStr word_count ++ " words",
            explanation := "README is very short. Consider adding more documentation." }
        (score, [f])
      else if word_count ≥ 100 then (score + 10, [])
      else (score, [])
    -- Check required sections
    let sm := README_REQUIRED_SECTIONS.foldl (fun sm pn =>
      if re.search pn.1 readme_lower then (sm.1 + 15, sm.2) else (sm.1, sm.2 ++ [pn.2]))
      ((sf.1, ([] : List String)))
    let findings :=
      if ¬ sm.2.isEmpty then
        let f : Finding :=
          { type := "readme_missing_sections", severity := Severity.info, file := readme_path,
            line := 1, snippet := "Missing: " ++ pyJoin ", " sm.2,
            explanation := "README is missing important sections: " ++ pyJoin ", " sm.2 }
        sf.2 ++ [f]
      else sf.2
    -- Check bonus sections
    let bonus_found := (README_BONUS_SECTIONS.filter (fun pn => re.search pn.1 readme_lower)).length
    let score := sm.1 + min 20 ((bonus_found : ℤ) * 5)
    (max 0 (min 100 score), findings)

/-- Accumulator state of `_analyze_error_handling`'s file loop. -/
structure ErrAccum where
  total_files : ℕ := 0
  files_with_error_handling : ℕ := 0
  good_error_handling : ℕ := 0
  bare_except_occurrences : List (String × ℕ × String) := []
deriving Repr

/-- `CodeQualityAnalyzer._analyze_error_handling`.  The single unguarded
division (`quality_ratio = good / files_with`) is modelled with `pydiv`, so
the result is an `Option`. -/
def analyze_error_handling (re : ReOracle) (repo_data : RepoData) :
    Option (ℤ × List Finding) :=
  let acc := repo_data.files.foldl (fun (acc : ErrAccum) fc =>
    let file_path := fc.1
    let content := fc.2
    if ¬ is_code_file file_path then acc
    else if is_test_file file_path then acc
    else
      let acc := { acc with total_files := acc.total_files + 1 }
      let lines := pySplitChar '\n' content
      if pyEndsWith file_path ".py" then
        if pyContains content "try:" then
          let acc := { acc with
            files_with_error_handling := acc.files_with_error_handling + 1 }
          let acc :=
            if re.search "except\\s+(?:[\\w.]+(?:\\s*,\\s*[\\w.]+)*|\\([\\w.\\s,]+\\))\\s*(?:as\\s+\\w+)?:" content then
              { acc with good_error_handling := acc.good_error_handling + 1 }
            else acc
          (re.finditer "except\\s*:" content).foldl (fun acc span =>
            let line_num := countNewlinesBefore content span.1 + 1
            let start_line := line_num - 2  -- max(0, line_num - 2)
            let end_line := min lines.length (line_num + 3)
            let snippet := pyJoin "\n" (pyListSlice lines start_line end_line)
            let snippet := if pyLen snippet > 200 then pyTake snippet 200 ++ "..." else snippet
            { acc with bare_except_occurrences :=
                acc.bare_except_occurrences ++ [(file_path, line_num, snippet)] }) acc
        else acc
      else if pyEndsWithAny file_path [".js", ".ts", ".jsx", ".tsx"] then
        if pyContains content "try \x7b" ∨ pyContains content "try\x7b" then
          let acc := { acc with
            files_with_error_handling := acc.files_with_error_handling + 1 }
          if re.search "catch\\s*\\([^)]+\\)\\s*\x7b[^\x7d]+\x7d" content then
            { acc with good_error_handling := acc.good_error_handling + 1 }
          else acc
        else acc
      else acc) {}
  if acc.total_files = 0 then some (50, [])  -- No files to analyze
  else
    let handling_ratio : ℚ :=
      if acc.total_files > 0 then
        (acc.files_with_error_handling : ℚ) / (acc.total_files : ℚ)
      else 0
    do
      let score : ℤ ←
        if acc.files_with_error_handling = 0 then
          pure (30 : ℤ)  -- Base score, error handling not always needed
        else do
          let base : ℤ := 40 + pythonTrunc (handling_ratio * 30)
          if acc.good_error_handling > 0 then do
            let quality_ratio ←
              pydiv (acc.good_error_handling : ℚ) (acc.files_with_error_handling : ℚ)
            pure (base + pythonTrunc (quality_ratio * 30))
          else pure base
      let bare_except_count := acc.bare_except_occurrences.length
      let sf : ℤ × List Finding :=
        if bare_except_count > 0 then
          let score := if bare_except_count > 3 then score - 15 else score
          -- example_file, example_line, example_snippet = bare_except_occurrences[0]
          let example_occ := acc.bare_except_occurrences.headD ("", 0, "")
          let locations := (acc.bare_except_occurrences.take 5).map (fun t =>
            t.1 ++ ":" ++ natStr t.2.1)
          let locations :=
            if bare_except_count > 5 then
              locations ++ ["... and " ++ natStr (bare_except_count - 5) ++ " more"]
            else locations
          let f : Finding :=
            { type := "bare_except",
              severity := if bare_except_count > 3 then Severity.warning else Severity.info,
              file := example_occ.1, line := example_occ.2.1, snippet := example_occ.2.2,
              explanation := "Found " ++ natStr bare_except_count
                ++ " bare \x27except:\x27 statement(s). Locations: " ++ pyJoin ", " locations
                ++ ". Use specific exception types for better error handling." }
          (score, [f])
        else (score, [])
      pure (max 0 (min 100 sf.1), sf.2)

/-- Accumulator state of `_analyze_logging`'s file loop. -/
structure LogAccum where
  has_logging_import : Bool := false
  uses_logging : Bool := false
  print_count : ℕ := 0
  console_log_count : ℕ := 0
  total_code_files : ℕ := 0
deriving Repr

/-- `CodeQualityAnalyzer._analyze_logging`. -/
def analyze_logging (re : ReOracle) (repo_data : RepoData) : ℤ × List Finding :=
  let acc := repo_data.files.foldl (fun (acc : LogAccum) fc =>
    let file_path := fc.1
    let content := fc.2
    if ¬ is_code_file file_path then acc
    else if is_test_file file_path then acc
    else
      let acc := { acc with total_code_files := acc.total_code_files + 1 }
      if pyEndsWith file_path ".py" then
        let acc :=
          if pyContains content "import logging" ∨ pyContains content "from logging" then
            { acc with has_logging_import := true }
          else acc
        let acc :=
          if re.search "logging\\.(debug|info|warning|error|critical|exception)\\(" content then
            { acc with uses_logging := true }
          else acc
        (pySplitChar '\n' content).foldl (fun acc line =>
          if pyStartsWith (pyStrip line) "#" then acc
          else if re.search "^\\s*print\\s*\\(" line then
            { acc with print_count := acc.print_count + 1 }
          else acc) acc
      else if pyEndsWithAny file_path [".js", ".ts", ".jsx", ".tsx"] then
        -- `re.search(…, re.IGNORECASE)`
        let acc :=
          if re.search "import.*(?:winston|pino|bunyan|log4js|logger)" content then
            { acc with has_logging_import := true, uses_logging := true }
          else acc
        (pySplitChar '\n' content).foldl (fun acc line =>
          if pyStartsWith (pyStrip line) "//" then acc
          else if pyContains line "console.log(" then
            { acc with console_log_count := acc.console_log_count + 1 }
          else acc) acc
      else acc) {}
  if acc.total_code_files = 0 then (50, [])
  else
    let total_prints := acc.print_count + acc.console_log_count
    let sf : ℤ × List Finding :=
      if acc.uses_logging then
        if total_prints < 5 then (100, [])
        else if total_prints < 15 then (90, [])
        else (80, [])
      else if acc.has_logging_import then (60, [])
      else
        if total_prints = 0 then (50, [])  -- Could be a small project
        else if total_prints < 10 then (40, [])
        else
          let f : Finding :=
            { type := "print_over_logging", severity := Severity.info,
              file := "(multiple files)", line := 1,
              snippet := "Found " ++ natStr total_prints ++ " print/console.log statements",
              explanation := "Using print statements instead of proper logging. Consider using logging module for production code." }
          (20, [f])
    (max 0 (min 100 sf.1), sf.2)

/-- The keys of the `dep_files` dict of `_analyze_dependencies`, in
insertion order. -/
def dep_file_names : List String :=
  ["requirements.txt", "pyproject.toml", "setup.py", "package.json", "go.mod",
   "Cargo.toml", "Gemfile", "pom.xml", "build.gradle", "composer.json"]

/-- The `lock_files` dict of `_analyze_dependencies`. -/
def lock_files : List (String × List String) :=
  [("requirements.txt", ["requirements.lock", "requirements-lock.txt"]),
   ("pyproject.toml", ["poetry.lock", "pdm.lock", "uv.lock"]),
   ("setup.py", []),
   ("package.json", ["package-lock.json", "yarn.lock", "pnpm-lock.yaml"]),
   ("go.mod", ["go.sum"]),
   ("Cargo.toml", ["Cargo.lock"]),
   ("Gemfile", ["Gemfile.lock"]),
   ("pom.xml", []),
   ("build.gradle", ["gradle.lockfile"]),
   ("composer.json", ["composer.lock"])]

def lockFilesFor (d : String) : List String :=
  ((lock_files.find? (fun p => p.1 = d)).map (fun p => p.2)).getD []

/-- `CodeQualityAnalyzer._analyze_dependencies`.  The source fills
`found_dep_files` and `found_lock_files` inside one loop over the tree; each
list only receives its own appends, so two passes produce the same lists. -/
def analyze_dependencies (repo_data : RepoData) : ℤ × List Finding :=
  let tree := repo_data.tree
  let found_dep_files := tree.foldl (fun acc path =>
    let filename := lastPathComponent path
    dep_file_names.foldl (fun acc d => if filename = d then acc ++ [d] else acc) acc) []
  let found_lock_files := tree.foldl (fun acc path =>
    let filename := lastPathComponent path
    lock_files.foldl (fun acc dl => if dl.2.contains filename then acc ++ [filename] else acc)
      acc) []
  if found_dep_files.isEmpty then
    let code_files := tree.filter (fun p => is_code_file p)
    if code_files.length > 5 then
      let f : Finding :=
        { type := "no_dependency_file", severity := Severity.info, file := "(project root)",
          line := 1, snippet := "No dependency management file found",
          explanation := "No requirements.txt, package.json, or similar dependency file found." }
      (40, [f])
    else (70, [])  -- Small project, acceptable
  else
    let score : ℤ := 60  -- Base score for having dependency file
    let has_lock := ¬ found_lock_files.isEmpty
    let sf : ℤ × List Finding :=
      if has_lock then (score + 20, [])
      else
        let needs_lock := ["package.json", "pyproject.toml", "Gemfile", "Cargo.toml"].any
          (fun d => found_dep_files.contains d ∧ ¬ (lockFilesFor d).isEmpty)
        if needs_lock then
          let f : Finding :=
            { type := "no_lock_file", severity := Severity.info,
              file := found_dep_files.headD "", line := 1, snippet := "No lock file found",
              explanation := "No dependency lock file found. Lock files ensure reproducible builds." }
          (score, [f])
        else (score, [])
    -- Check version pinning in requirements.txt
    let sf :=
      if found_dep_files.contains "requirements.txt" then
        let req_content :=
          ((repo_data.files.find? (fun fc => fc.1 = "requirements.txt")).map (fun fc => fc.2)).getD ""
        if req_content ≠ "" then
          let all_lines := pySplitChar '\n' req_content
          let dep_lines := (all_lines.enum.map (fun il => (il.1 + 1, pyStrip il.2))).filter
            (fun p => p.2 ≠ "" ∧ ¬ pyStartsWith p.2 "#")
          -- `pinned_lines` is computed and never read in the source as well
          let _pinned_lines := dep_lines.filter (fun p =>
            pyContains p.2 "==" ∨ pyContains p.2 ">=" ∨ pyContains p.2 "~=")
          let unpinned_lines := dep_lines.filter (fun p =>
            ¬ pyContains p.2 "==" ∧ ¬ pyContains p.2 ">=" ∧ ¬ pyContains p.2 "~=")
          let unpinned_count := unpinned_lines.length
          if unpinned_count > 3 then
            let unpinned_examples := (unpinned_lines.take 5).map (fun p => p.2)
            let snippet := pyJoin "\n" unpinned_examples
            let snippet :=
              if unpinned_count > 5 then
                snippet ++ "\n... and " ++ natStr (unpinned_count - 5) ++ " more"
              else snippet
            let f : Finding :=
              { type := "unpinned_dependencies", severity := Severity.info,
                file := "requirements.txt", line := (unpinned_lines.headD (1, "")).1,
                snippet := snippet,
                explanation := natStr unpinned_count
                  ++ " dependencies without version constraints. This can cause reproducibility issues." }
            (sf.1 - 10, sf.2 ++ [f])
          else if unpinned_count = 0 ∧ ¬ dep_lines.isEmpty then (sf.1 + 10, sf.2)
          else sf
        else sf
      else sf
    -- Check dependency count (too many = complexity)
    let dep_count := repo_data.dependencies.length
    let sf :=
      if dep_count > 50 then
        let f : Finding :=
          { type := "many_dependencies", severity := Severity.info,
            file := found_dep_files.headD "", line := 1,
            snippet := natStr dep_count ++ " dependencies",
            explanation := "Large number of dependencies (" ++ natStr dep_count
              ++ "). Consider if all are necessary." }
        (sf.1 - 10, sf.2 ++ [f])
      else sf
    (max 0 (min 100 sf.1), sf.2)

/-- `CodeQualityAnalyzer.analyze`. -/
def code_quality_analyze (re : ReOracle) (repo_data : RepoData) : Option CodeQuality := do
  let org := analyze_organization repo_data
  let test := analyze_test_coverage repo_data
  let readme := analyze_readme re repo_data
  let err ← analyze_error_handling re repo_data
  let logq := analyze_logging re repo_data
  let dep := analyze_dependencies repo_data
  let findings := org.2 ++ test.2 ++ readme.2 ++ err.2 ++ logq.2 ++ dep.2
  -- Calculate overall score (weighted average), truncated by int()
  let overall_score := pythonTrunc ((org.1 : ℚ) * metricWeight "files_organized"
    + (test.1 : ℚ) * metricWeight "test_coverage"
    + (readme.1 : ℚ) * metricWeight "readme_quality"
    + (err.1 : ℚ) * metricWeight "error_handling"
    + (logq.1 : ℚ) * metricWeight "logging_quality"
    + (dep.1 : ℚ) * metricWeight "dependency_health")
  pure { score := overall_score, files_organized := org.1, test_coverage := test.1,
         readme_quality := readme.1, error_handling := err.1, logging_quality := logq.1,
         dependency_health := dep.1, findings := findings }

/-! ## Spec-side definitions used by the claims -/

/-- Comment-ratio tier of `_calculate_score` (max 15 pts). -/
def heur_comment_ratio_pts (f : ExtractedFeatures) : ℚ :=
  if f.comment_ratio ≥ COMMENT_RATIO_HIGH then 15
  else if f.comment_ratio ≥ COMMENT_RATIO_MEDIUM then 8
  else 0

/-- Redundant-comment tier of `_calculate_score` (max 20 pts). -/
def heur_redundant_pts (redundant_count : ℕ) : ℚ :=
  if redundant_count ≥ REDUNDANT_COMMENT_HIGH then 20
  else if redundant_count ≥ REDUNDANT_COMMENT_MEDIUM then 10
  else if redundant_count > 0 then 5
  else 0

/-- Variable-name-length tier of `_calculate_score` (max 10 pts). -/
def heur_var_name_pts (f : ExtractedFeatures) : ℚ :=
  if f.avg_variable_name_length ≥ AVG_VAR_NAME_LENGTH_HIGH then 10
  else if f.avg_variable_name_length ≥ AVG_VAR_NAME_LENGTH_MEDIUM then 5
  else 0

/-- Function-name-length tier of `_calculate_score` (max 10 pts). -/
def heur_func_name_pts (f : ExtractedFeatures) : ℚ :=
  if f.avg_function_name_length ≥ AVG_FUNC_NAME_LENGTH_HIGH then 10
  else if f.avg_function_name_length ≥ AVG_FUNC_NAME_LENGTH_MEDIUM then 5
  else 0

/-- Extreme-naming-consistency bonus of `_calculate_score` (5 pts when the
mean of function and variable naming consistency exceeds 0.95). -/
def heur_consistency_pts (f : ExtractedFeatures) : ℚ :=
  if (f.function_naming_consistency + f.variable_naming_consistency) / 2 > 95/100 then 5
  else 0

/-- The heuristic score of `_calculate_score` as the sum of its five tiered
contributions — a function of the style features and the redundant-comment
count only, independent of the classifier output. -/
def heuristicScore (f : ExtractedFeatures) (redundant_count : ℕ) : ℚ :=
  heur_comment_ratio_pts f + heur_redundant_pts redundant_count
    + heur_var_name_pts f + heur_func_name_pts f + heur_consistency_pts f

/-- The size-band bonus of `_calculate_file_importance` (estimated lines =
`file_size / 40`, peak +20 for 50–500 estimated lines). -/
def sizeBandBonus (file_size : ℕ) : ℤ :=
  if 50 ≤ ((file_size : ℚ) / 40) ∧ ((file_size : ℚ) / 40) ≤ 500 then 20
  else if 20 ≤ ((file_size : ℚ) / 40) ∧ ((file_size : ℚ) / 40) < 50 then 10
  else if 500 < ((file_size : ℚ) / 40) then 5
  else 0

/-- Modelled from the spec (claim C5): importance = base 50, +40 entry
point, +15 core-application directory, +35 AI-instruction file, +15
README-like name, a size-band bonus, −25 test paths, −35 UI-boilerplate
directories, −20 utility/hook directories, −30 migration/fixture paths —
"with no other terms contributing to the score". -/
def spec_importance_C5 (rel_path : String) (file_size : ℕ) : ℤ :=
  let filename := pyLower (lastPathComponent rel_path)
  let path_lower := pyLower rel_path
  let path_parts := pySplitChar '/' (pyLower rel_path)
  50 + (if entry_points.contains filename then 40 else 0)
     + (if core_dirs.any (fun d => path_parts.contains d) then 15 else 0)
     + (if ai_files.contains filename ∨ ai_files.contains path_lower then 35 else 0)
     + (if pyStartsWith filename "readme" then 15 else 0)
     + sizeBandBonus file_size
     - (if importance_test_patterns.any (fun p => pyContains path_lower p) then 25 else 0)
     - (if ui_patterns.any (fun p => pyContains path_lower p) then 35 else 0)
     - (if util_patterns.any (fun p => pyContains path_lower p) then 20 else 0)
     - (if pyContains path_lower "migration" ∨ pyContains path_lower "fixture"
          ∨ pyContains path_lower "mock" then 30 else 0)

/-- The amended C5 formula: as `spec_importance_C5`, plus the terms the code
actually applies and the claim omits — +10 for a `server`/`backend`/`api`
path segment, a +0 no-op for recognized config filenames, −15 for
config-like filenames, and two independent −30 adjustments (one for
migration paths, one for fixture/mock paths). -/
def amended_importance (rel_path : String) (file_size : ℕ) : ℤ :=
  let filename := pyLower (lastPathComponent rel_path)
  let path_lower := pyLower rel_path
  let path_parts := pySplitChar '/' (pyLower rel_path)
  50 + (if entry_points.contains filename then 40 else 0)
     + (if core_dirs.any (fun d => path_parts.contains d) then 15 else 0)
     + (if path_parts.contains "server" ∨ path_parts.contains "backend"
          ∨ path_parts.contains "api" then 10 else 0)
     + (if config_files.contains filename then 0 else 0)
     + (if ai_files.contains filename ∨ ai_files.contains path_lower then 35 else 0)
     + (if pyStartsWith filename "readme" then 15 else 0)
     + sizeBandBonus file_size
     - (if importance_test_patterns.any (fun p => pyContains path_lower p) then 25 else 0)
     - (if ui_patterns.any (fun p => pyContains path_lower p) then 35 else 0)
     - (if util_patterns.any (fun p => pyContains path_lower p) then 20 else 0)
     - (if low_signal_patterns.any (fun p => pyContains filename p) then 15 else 0)
     - (if pyContains path_lower "migration" then 30 else 0)
     - (if pyContains path_lower "fixture" ∨ pyContains path_lower "mock" then 30 else 0)

/-- A regex oracle with no matches at all — a concrete instance used to
instantiate oracle-quantified theorems on concrete inputs. -/
def trivialOracle : ReOracle :=
  { finditer := fun _ _ => [], search := fun _ _ => false,
    rematch := fun _ _ => false, findall := fun _ _ => [] }

/-- The `no_readme` finding `_analyze_readme` produces when neither the
read files nor the tree contain a README. -/
def cqEmptyFinding : Finding :=
  { type := "no_readme", severity := Severity.warning, file := "README.md", line := 1,
    snippet := "(missing file)",
    explanation := "No README file found. A README is essential for project documentation." }

/-- The CodeQuality result on the empty snapshot: neutral metric scores
50/50/0/50/50/70, overall `int(46.5) = 46`, and the single `no_readme`
finding. -/
def cqEmptyResult : CodeQuality :=
  { score := 46, files_organized := 50, test_coverage := 50, readme_quality := 0,
    error_handling := 50, logging_quality := 50, dependency_health := 70,
    findings := [cqEmptyFinding] }

/-! # Theorems -/

/-! ## Generic helper lemmas -/

theorem floor_le_pythonRound (q : ℚ) : ⌊q⌋ ≤ pythonRound q := by
  simp only [pythonRound]
  split_ifs <;> omega

theorem pythonRound_le_floor_add_one (q : ℚ) : pythonRound q ≤ ⌊q⌋ + 1 := by
  simp only [pythonRound]
  split_ifs <;> omega

/-- Adding an even integer commutes with banker's rounding. -/
theorem pythonRound_add_even (q : ℚ) (n : ℤ) (hn : n % 2 = 0) :
    pythonRound (q + n) = pythonRound q + n := by
  simp only [pythonRound]
  have hfl : ⌊q + (n : ℚ)⌋ = ⌊q⌋ + n := Int.floor_add_int q n
  rw [hfl]
  have hr : q + (n : ℚ) - ((⌊q⌋ + n : ℤ) : ℚ) = q - (⌊q⌋ : ℚ) := by
    push_cast
    ring
  rw [hr]
  have hmod : (⌊q⌋ + n) % 2 = ⌊q⌋ % 2 := by omega
  rw [hmod]
  split_ifs <;> omega

theorem pythonRound_ge (q : ℚ) (n : ℤ) (h : (n : ℚ) ≤ q) : n ≤ pythonRound q := by
  have h1 : n ≤ ⌊q⌋ := Int.le_floor.mpr h
  have h2 := floor_le_pythonRound q
  omega

theorem pythonTrunc_bounds (q : ℚ) (h0 : 0 ≤ q) (h100 : q ≤ 100) :
    0 ≤ pythonTrunc q ∧ pythonTrunc q ≤ 100 := by
  unfold pythonTrunc
  rw [if_neg (by linarith)]
  constructor
  · exact Int.floor_nonneg.mpr h0
  · have : ⌊q⌋ ≤ ⌊(100 : ℚ)⌋ := Int.floor_le_floor h100
    simpa using this

theorem clamp_round_congr {a b : ℚ} (h : a = b) :
    max 0 (min 100 (pythonRound a)) = max 0 (min 100 (pythonRound b)) := by rw [h]

/-! ## C2: the verdict decision table -/

/-- Claim C2: `compute_verdict` is total over all 8 combinations of the
booleans `(aiScore≥60, badPracticesScore≥50, qualityScore≥50)`: it returns
Slop Coder for (T,T,F), Good AI Coder for (T,F,T), Senior for (F,F,T),
Junior for (F,T,F), and in the four mixed combinations decides by
`qualityScore≥50` (Good AI Coder vs Slop Coder when aiScore≥60, Senior vs
Junior otherwise) with confidence exactly 50. -/
theorem compute_verdict_table (ai_score bad_practices_score quality_score : ℤ) :
    (compute_verdict ai_score bad_practices_score quality_score).type
      = verdictTableType (decide (ai_score ≥ 60)) (decide (bad_practices_score ≥ 50))
          (decide (quality_score ≥ 50))
    ∧ (isMixedSignals (decide (ai_score ≥ 60)) (decide (bad_practices_score ≥ 50))
          (decide (quality_score ≥ 50)) = true →
        (compute_verdict ai_score bad_practices_score quality_score).confidence = 50) := by
  rcases Bool.eq_false_or_eq_true (decide (ai_score ≥ 60)) with hda | hda <;>
    rcases Bool.eq_false_or_eq_true (decide (bad_practices_score ≥ 50)) with hdb | hdb <;>
    rcases Bool.eq_false_or_eq_true (decide (quality_score ≥ 50)) with hdq | hdq <;>
    rw [hda, hdb, hdq] <;>
    simp only [decide_eq_true_eq, decide_eq_false_iff_not, ge_iff_le, not_le] at hda hdb hdq <;>
    unfold compute_verdict <;>
    split_ifs <;>
    first
      | (exfalso; omega)
      | exact ⟨rfl, fun h => rfl⟩
      | exact ⟨rfl, fun h => by simp [isMixedSignals] at h⟩

/-- Witness for C2: at scores (70, 60, 60) the combination is mixed and the
confidence is exactly 50. -/
theorem compute_verdict_table_witness :
    isMixedSignals (decide ((70 : ℤ) ≥ 60)) (decide ((60 : ℤ) ≥ 50)) (decide ((60 : ℤ) ≥ 50))
        = true
    ∧ (compute_verdict 70 60 60).confidence = 50 :=
  ⟨by decide, (compute_verdict_table 70 60 60).2 (by decide)⟩

/-! ## C3: the BadPractices score -/

theorem bp_foldl_eq (fs : List Finding) (acc : ℕ) :
    fs.foldl (fun a f => a + severity_weight f.severity) acc
      = acc + (fs.map (fun f => severity_weight f.severity)).sum := by
  induction fs generalizing acc with
  | nil => simp
  | cons hd tl ih =>
    simp only [List.foldl_cons, List.map_cons, List.sum_cons, ih]
    omega

/-- Claim C3: the BadPractices score is `min(100, Σ severityWeight)` with
weights critical=60, warning=20, info=5; it is monotone non-decreasing under
appending findings, saturates at 100, and a single critical finding alone
already yields at least 60. -/
theorem bad_practices_score_formula :
    (∀ findings : List Finding,
      bp_calculate_score findings
        = min 100 ((findings.map (fun f => severity_weight f.severity)).sum))
    ∧ (∀ (findings : List Finding) (f : Finding),
        bp_calculate_score findings ≤ bp_calculate_score (findings ++ [f]))
    ∧ (∀ findings : List Finding, bp_calculate_score findings ≤ 100)
    ∧ (∀ f : Finding, f.severity = Severity.critical → 60 ≤ bp_calculate_score [f]) := by
  have hform : ∀ findings : List Finding,
      bp_calculate_score findings
        = min 100 ((findings.map (fun f => severity_weight f.severity)).sum) := by
    intro findings
    simp only [bp_calculate_score, MAX_SCORE, bp_foldl_eq]
    omega
  refine ⟨hform, ?_, ?_, ?_⟩
  · intro findings f
    rw [hform, hform]
    simp only [List.map_append, List.sum_append]
    omega
  · intro findings
    rw [hform]
    omega
  · intro f hf
    rw [hform]
    simp [hf, severity_weight]

/-- Witness for C3: a concrete critical finding scores exactly ≥ 60. -/
theorem bad_practices_score_formula_witness :
    ({ type := "env_committed", severity := Severity.critical, file := ".env", line := 1,
       snippet := "File: .env", explanation := "x" } : Finding).severity = Severity.critical
    ∧ 60 ≤ bp_calculate_score
        [{ type := "env_committed", severity := Severity.critical, file := ".env", line := 1,
           snippet := "File: .env", explanation := "x" }] :=
  ⟨rfl, bad_practices_score_formula.2.2.2 _ rfl⟩

/-! ## C1/C9/C10: the AISlop score -/

theorem heur_comment_ratio_pts_bounds (f : ExtractedFeatures) :
    0 ≤ heur_comment_ratio_pts f ∧ heur_comment_ratio_pts f ≤ 15 := by
  unfold heur_comment_ratio_pts
  split_ifs <;> norm_num

theorem heur_redundant_pts_bounds (rc : ℕ) :
    0 ≤ heur_redundant_pts rc ∧ heur_redundant_pts rc ≤ 20 := by
  unfold heur_redundant_pts
  split_ifs <;> norm_num

theorem heur_var_name_pts_bounds (f : ExtractedFeatures) :
    0 ≤ heur_var_name_pts f ∧ heur_var_name_pts f ≤ 10 := by
  unfold heur_var_name_pts
  split_ifs <;> norm_num

theorem heur_func_name_pts_bounds (f : ExtractedFeatures) :
    0 ≤ heur_func_name_pts f ∧ heur_func_name_pts f ≤ 10 := by
  unfold heur_func_name_pts
  split_ifs <;> norm_num

theorem heur_consistency_pts_bounds (f : ExtractedFeatures) :
    0 ≤ heur_consistency_pts f ∧ heur_consistency_pts f ≤ 5 := by
  unfold heur_consistency_pts
  split_ifs <;> norm_num

theorem heuristicScore_nonneg (f : ExtractedFeatures) (rc : ℕ) :
    0 ≤ heuristicScore f rc := by
  have h1 := heur_comment_ratio_pts_bounds f
  have h2 := heur_redundant_pts_bounds rc
  have h3 := heur_var_name_pts_bounds f
  have h4 := heur_func_name_pts_bounds f
  have h5 := heur_consistency_pts_bounds f
  unfold heuristicScore
  linarith [h1.1, h2.1, h3.1, h4.1, h5.1]

theorem heuristicScore_le_60 (f : ExtractedFeatures) (rc : ℕ) :
    heuristicScore f rc ≤ 60 := by
  have h1 := heur_comment_ratio_pts_bounds f
  have h2 := heur_redundant_pts_bounds rc
  have h3 := heur_var_name_pts_bounds f
  have h4 := heur_func_name_pts_bounds f
  have h5 := heur_consistency_pts_bounds f
  unfold heuristicScore
  linarith [h1.2, h2.2, h3.2, h4.2, h5.2]

/-- A conditional increment pulled out as an added conditional term. -/
theorem ite_add_right1 {α : Type} [CommRing α] (c : Prop) (i : Decidable c) (x a : α) :
    (if c then x + a else x) = x + (if c then a else 0) := by split <;> ring

/-- A conditional decrement pulled out as a subtracted conditional term. -/
theorem ite_sub_right1 {α : Type} [CommRing α] (c : Prop) (i : Decidable c) (x a : α) :
    (if c then x - a else x) = x - (if c then a else 0) := by split <;> ring

/-- A two-tier conditional increment pulled out as an added term. -/
theorem ite_add_right2 {α : Type} [CommRing α] (c1 c2 : Prop) (i1 : Decidable c1)
    (i2 : Decidable c2) (x a b : α) :
    (if c1 then x + a else if c2 then x + b else x)
      = x + (if c1 then a else if c2 then b else 0) := by split_ifs <;> ring

/-- A three-tier conditional increment pulled out as an added term. -/
theorem ite_add_right3 {α : Type} [CommRing α] (c1 c2 c3 : Prop) (i1 : Decidable c1)
    (i2 : Decidable c2) (i3 : Decidable c3) (x a b d : α) :
    (if c1 then x + a else if c2 then x + b else if c3 then x + d else x)
      = x + (if c1 then a else if c2 then b else if c3 then d else 0) := by
  split_ifs <;> ring

/-- The score component of `_calculate_score` equals the clamped rounded sum
of the ML term, the heuristic score and the emoji bonus. -/
theorem calc_score_fst_eq (cr : ClassifierResult) (f : ExtractedFeatures) (rc : ℕ)
    (e : Bool) :
    (calculate_score cr f rc e).1
      = max 0 (min 100 (pythonRound (cr.ai_probability * 100 * ML_WEIGHT
          + heuristicScore f rc + (if e then EMOJI_BONUS else 0)))) := by
  simp only [calculate_score]
  rw [ite_add_right1, ite_add_right1, ite_add_right2, ite_add_right2, ite_add_right3,
    ite_add_right2]
  simp only [heuristicScore, heur_comment_ratio_pts, heur_redundant_pts, heur_var_name_pts,
    heur_func_name_pts, heur_consistency_pts, zero_add]

/-- Claim C1: the AISlop score is
`clamp(0, 100, round(0.40·100·P(AI) + heuristicScore + 80·hasEmoji))`, where
`heuristicScore` is the sum of the five tiered contributions (≤ 15, 20, 10,
10 and 5 points respectively), is at most 60 in total, non-negative, and —
being a function of the style features and redundant count only — is
independent of the classifier output. -/
theorem ai_slop_score_formula (cr : ClassifierResult) (f : ExtractedFeatures)
    (redundant_count : ℕ) (has_emojis : Bool) :
    (calculate_score cr f redundant_count has_emojis).1
      = max 0 (min 100 (pythonRound ((40 : ℚ)/100 * 100 * cr.ai_probability
          + heuristicScore f redundant_count + 80 * (if has_emojis then 1 else 0))))
    ∧ heur_comment_ratio_pts f ≤ 15
    ∧ heur_redundant_pts redundant_count ≤ 20
    ∧ heur_var_name_pts f ≤ 10
    ∧ heur_func_name_pts f ≤ 10
    ∧ heur_consistency_pts f ≤ 5
    ∧ 0 ≤ heuristicScore f redundant_count
    ∧ heuristicScore f redundant_count ≤ 60 := by
  refine ⟨?_, (heur_comment_ratio_pts_bounds f).2, (heur_redundant_pts_bounds _).2,
    (heur_var_name_pts_bounds f).2, (heur_func_name_pts_bounds f).2,
    (heur_consistency_pts_bounds f).2, heuristicScore_nonneg f _, heuristicScore_le_60 f _⟩
  rw [calc_score_fst_eq]
  exact clamp_round_congr (by cases has_emojis <;> simp [EMOJI_BONUS, ML_WEIGHT] <;> ring)

/-- Claim C9: for fixed style features, classifier output and
redundant-comment count, the AISlop score with the emoji flag set is at
least the score without it. -/
theorem ai_slop_emoji_monotone (cr : ClassifierResult) (f : ExtractedFeatures) (rc : ℕ) :
    (calculate_score cr f rc false).1 ≤ (calculate_score cr f rc true).1 := by
  rw [calc_score_fst_eq, calc_score_fst_eq]
  have ht : (if (true : Bool) = true then EMOJI_BONUS else (0 : ℚ)) = EMOJI_BONUS := if_pos rfl
  have hf : (if (false : Bool) = true then EMOJI_BONUS else (0 : ℚ)) = 0 :=
    if_neg (by simp)
  rw [ht, hf, add_zero]
  have h80 : pythonRound (cr.ai_probability * 100 * ML_WEIGHT + heuristicScore f rc
      + EMOJI_BONUS)
      = pythonRound (cr.ai_probability * 100 * ML_WEIGHT + heuristicScore f rc) + 80 := by
    have h : (EMOJI_BONUS : ℚ) = ((80 : ℤ) : ℚ) := by norm_num [EMOJI_BONUS]
    rw [h]
    exact pythonRound_add_even _ 80 (by norm_num)
  rw [h80]
  omega

/-- Claim C10: with any emoji present, the AISlop score is at least 80: the
ML and heuristic contributions are non-negative and the +80 bonus is added
before clamping to [0,100]. -/
theorem ai_slop_emoji_floor (cr : ClassifierResult) (f : ExtractedFeatures) (rc : ℕ)
    (h : 0 ≤ cr.ai_probability) :
    80 ≤ (calculate_score cr f rc true).1 := by
  rw [calc_score_fst_eq]
  have hml : 0 ≤ cr.ai_probability * 100 * ML_WEIGHT := by
    unfold ML_WEIGHT
    positivity
  have hh := heuristicScore_nonneg f rc
  have harg : ((80 : ℤ) : ℚ) ≤ cr.ai_probability * 100 * ML_WEIGHT + heuristicScore f rc
      + (if true then EMOJI_BONUS else 0) := by
    simp only [if_true]
    have : (EMOJI_BONUS : ℚ) = 80 := by norm_num [EMOJI_BONUS]
    push_cast
    linarith
  have := pythonRound_ge _ 80 harg
  omega

/-- Witness for C10: a concrete classifier output with probability 1/2 and
default features scores at least 80 with the emoji flag set. -/
theorem ai_slop_emoji_floor_witness :
    0 ≤ ({ ai_probability := 1/2, confidence := "low", is_ai := false }
        : ClassifierResult).ai_probability
    ∧ 80 ≤ (calculate_score
        { ai_probability := 1/2, confidence := "low", is_ai := false } {} 0 true).1 :=
  ⟨by norm_num, ai_slop_emoji_floor _ {} 0 (by norm_num)⟩

/-! ## C5: the file-importance formula -/

/-- Counterexample for C5 as stated: for `server/foo.py` (size 0) the code
gives 60 — the `server`/`backend`/`api` +10 term fires — while the claim's
formula, which lists no such term, gives 50. -/
theorem file_importance_counterexample :
    calculate_file_importance "server/foo.py" 0 = 60
    ∧ spec_importance_C5 "server/foo.py" 0 = 50
    ∧ calculate_file_importance "server/foo.py" 0 ≠ spec_importance_C5 "server/foo.py" 0 := by
  refine ⟨?_, ?_, ?_⟩ <;>
    · simp only [calculate_file_importance, spec_importance_C5, sizeBandBonus, Nat.cast_zero,
        zero_div]
      decide

/-- Amended C5: the importance score is base 50 plus exactly the adjustment
terms of `amended_importance` — the claim's list extended with the +10
backend/server/api term, the +0 config no-op, the −15 config-like-filename
term, and migration and fixture/mock as two independent −30 terms. -/
theorem file_importance_amended (rel_path : String) (file_size : ℕ) :
    calculate_file_importance rel_path file_size = amended_importance rel_path file_size := by
  simp only [calculate_file_importance, amended_importance, sizeBandBonus]
  rw [ite_sub_right1, ite_sub_right1, ite_sub_right1, ite_sub_right1, ite_sub_right1,
    ite_sub_right1, ite_add_right3, ite_add_right1, ite_add_right1, ite_add_right1,
    ite_add_right1, ite_add_right1, ite_add_right1]

/-! ## C6: naming consistency of empty / unclassifiable identifier sets -/

theorem calculate_consistency_one (names : List String)
    (h : names = [] ∨ ∀ n ∈ names, detect_naming_style n = NamingStyle.unknown) :
    calculate_consistency names = 1 := by
  rcases h with h | h
  · subst h; rfl
  · rcases names with _ | ⟨a, as⟩
    · rfl
    · have hf : ((a :: as).map detect_naming_style).filter
          (fun st => st ≠ NamingStyle.unknown) = [] := by
        rw [List.filter_eq_nil_iff]
        intro st hst
        obtain ⟨n, hn, rfl⟩ := List.mem_map.mp hst
        simp [h n hn]
      simp only [calculate_consistency, hf]
      simp

theorem pyRound3_one : pyRound3 1 = 1 := by
  norm_num [pyRound3, pythonRound]

/-- Counterexample for C6 as stated: aggregating an *empty* list of file
features (e.g. a snapshot with no supported-language files) leaves the
dataclass defaults, so the aggregated `function_naming_consistency` is 0.0
even though the function-identifier set is empty — not 1.0 as claimed. -/
theorem consistency_empty_aggregate_counterexample :
    (build_style_features (aggregate_features []) 0).function_naming_consistency = 0
    ∧ (build_style_features (aggregate_features []) 0).function_naming_consistency ≠ 1 := by
  have h : (build_style_features (aggregate_features []) 0).function_naming_consistency
      = pyRound3 0 := rfl
  rw [h]
  norm_num [pyRound3, pythonRound]

/-- Amended C6: `calculate_consistency` of an empty or fully-unclassifiable
identifier list is 1.0; and provided at least one file's features were
aggregated, each per-category consistency field of the aggregated
StyleFeatures is 1.0 whenever that category's identifier set is empty or
fully unclassifiable.  (With zero aggregated files the dataclass defaults of
0.0 are returned instead.) -/
theorem naming_consistency_amended (ffs : List FileFeatures) (rc : ℕ) (hffs : ffs ≠ []) :
    (∀ names : List String,
      (names = [] ∨ ∀ n ∈ names, detect_naming_style n = NamingStyle.unknown) →
        calculate_consistency names = 1)
    ∧ ((ffs.foldl (fun acc ff => acc ++ ff.function_names) [] = []
          ∨ ∀ n ∈ ffs.foldl (fun acc ff => acc ++ ff.function_names) [],
              detect_naming_style n = NamingStyle.unknown) →
        (build_style_features (aggregate_features ffs) rc).function_naming_consistency = 1)
    ∧ ((ffs.foldl (fun acc ff => acc ++ ff.variable_names) [] = []
          ∨ ∀ n ∈ ffs.foldl (fun acc ff => acc ++ ff.variable_names) [],
              detect_naming_style n = NamingStyle.unknown) →
        (build_style_features (aggregate_features ffs) rc).variable_naming_consistency = 1)
    ∧ ((ffs.foldl (fun acc ff => acc ++ ff.class_names) [] = []
          ∨ ∀ n ∈ ffs.foldl (fun acc ff => acc ++ ff.class_names) [],
              detect_naming_style n = NamingStyle.unknown) →
        (build_style_features (aggregate_features ffs) rc).class_naming_consistency = 1)
    ∧ ((ffs.foldl (fun acc ff => acc ++ ff.constant_names) [] = []
          ∨ ∀ n ∈ ffs.foldl (fun acc ff => acc ++ ff.constant_names) [],
              detect_naming_style n = NamingStyle.unknown) →
        (build_style_features (aggregate_features ffs) rc).constant_naming_consistency = 1) := by
  have hne : ¬ ffs.isEmpty = true := by
    simpa [List.isEmpty_iff] using hffs
  have hagg1 : (aggregate_features ffs).function_naming_consistency
      = calculate_consistency (ffs.foldl (fun acc ff => acc ++ ff.function_names) []) := by
    unfold aggregate_features
    rw [if_neg hne]
  have hagg2 : (aggregate_features ffs).variable_naming_consistency
      = calculate_consistency (ffs.foldl (fun acc ff => acc ++ ff.variable_names) []) := by
    unfold aggregate_features
    rw [if_neg hne]
  have hagg3 : (aggregate_features ffs).class_naming_consistency
      = calculate_consistency (ffs.foldl (fun acc ff => acc ++ ff.class_names) []) := by
    unfold aggregate_features
    rw [if_neg hne]
  have hagg4 : (aggregate_features ffs).constant_naming_consistency
      = calculate_consistency (ffs.foldl (fun acc ff => acc ++ ff.constant_names) []) := by
    unfold aggregate_features
    rw [if_neg hne]
  refine ⟨calculate_consistency_one, ?_, ?_, ?_, ?_⟩ <;> intro hcond
  · show pyRound3 (aggregate_features ffs).function_naming_consistency = 1
    rw [hagg1, calculate_consistency_one _ hcond, pyRound3_one]
  · show pyRound3 (aggregate_features ffs).variable_naming_consistency = 1
    rw [hagg2, calculate_consistency_one _ hcond, pyRound3_one]
  · show pyRound3 (aggregate_features ffs).class_naming_consistency = 1
    rw [hagg3, calculate_consistency_one _ hcond, pyRound3_one]
  · show pyRound3 (aggregate_features ffs).constant_naming_consistency = 1
    rw [hagg4, calculate_consistency_one _ hcond, pyRound3_one]

/-- Witness for the amended C6: one aggregated file with no identifiers at
all has all four consistency fields equal to 1.0. -/
theorem naming_consistency_amended_witness :
    ([({ language := "Python" } : FileFeatures)] ≠ [])
    ∧ (build_style_features
          (aggregate_features [({ language := "Python" } : FileFeatures)])
          0).function_naming_consistency = 1 :=
  ⟨by simp,
   (naming_consistency_amended [{ language := "Python" }] 0 (by simp)).2.1 (Or.inl rfl)⟩

/-! ## C8: commit-history extraction -/

/-- One parsing step can only grow the commit count (emitted plus pending)
when the line is a `|||` header line. -/
theorem gitLogStep_measure (st : List CommitInfo × Option CommitInfo) (line : String) :
    (gitLogStep st line).1.length + (if (gitLogStep st line).2.isSome then 1 else 0)
      ≤ st.1.length + (if st.2.isSome then 1 else 0)
        + (if pyContains line "|||" then 1 else 0) := by
  obtain ⟨cs, cur⟩ := st
  cases cur <;> simp only [gitLogStep] <;> split_ifs <;> (repeat' split) <;>
    (try simp_all) <;> omega

/-- A line with no `|||` delimiter leaves the initial empty state unchanged. -/
theorem gitLogStep_nonheader_empty (line : String) (h : pyContains line "|||" = false) :
    gitLogStep ([], none) line = ([], none) := by
  simp [gitLogStep, h]

theorem gitLog_fold_nonheader (lines : List String)
    (h : ∀ l ∈ lines, pyContains l "|||" = false) :
    lines.foldl gitLogStep ([], none) = ([], none) := by
  induction lines with
  | nil => rfl
  | cons hd tl ih =>
    rw [List.foldl_cons, gitLogStep_nonheader_empty hd (h hd (by simp))]
    exact ih (fun l hl => h l (List.mem_cons_of_mem hd hl))

theorem gitLog_fold_measure (lines : List String)
    (st : List CommitInfo × Option CommitInfo) :
    (lines.foldl gitLogStep st).1.length
        + (if (lines.foldl gitLogStep st).2.isSome then 1 else 0)
      ≤ st.1.length + (if st.2.isSome then 1 else 0)
        + (lines.filter (fun l => pyContains l "|||")).length := by
  induction lines generalizing st with
  | nil => simp
  | cons hd tl ih =>
    rw [List.foldl_cons, List.filter_cons]
    have h1 := ih (gitLogStep st hd)
    have h2 := gitLogStep_measure st hd
    by_cases hhd : pyContains hd "|||" = true
    · rw [if_pos hhd] at h2
      rw [if_pos hhd, List.length_cons]
      omega
    · rw [if_neg hhd] at h2
      rw [if_neg hhd]
      omega

/-- Claim C8: a non-zero exit status of the `git log` subprocess yields an
empty commit list; a log in which no line carries the `|||` header
delimiter parses to an empty list; the parse is total (no exception), and
the number of parsed commits never exceeds the number of header lines — in
particular it is bounded by the `-N` limit whenever git emits at most `N`
header lines. -/
theorem git_commits_parse (returncode : ℤ) (stdout : String) :
    (returncode ≠ 0 → get_git_commits returncode stdout = [])
    ∧ ((∀ l ∈ pySplitChar '\n' stdout, pyContains l "|||" = false) →
        get_git_commits returncode stdout = [])
    ∧ (get_git_commits returncode stdout).length ≤ headerLineCount stdout
    ∧ (∀ N : ℕ, headerLineCount stdout ≤ N →
        (get_git_commits returncode stdout).length ≤ N) := by
  have hlen : (parseGitLog stdout).length ≤ headerLineCount stdout := by
    unfold parseGitLog headerLineCount
    have h := gitLog_fold_measure (pySplitChar '\n' stdout) ([], none)
    rcases hfin : ((pySplitChar '\n' stdout).foldl gitLogStep ([], none)).2 with _ | c <;>
      rw [hfin] at h <;> simp_all <;> omega
  refine ⟨?_, ?_, ?_, ?_⟩
  · intro h
    unfold get_git_commits
    rw [if_pos h]
  · intro h
    unfold get_git_commits
    split_ifs with hrc
    · rfl
    · unfold parseGitLog
      rw [gitLog_fold_nonheader _ h]
  · unfold get_git_commits
    split_ifs with hrc
    · simp
    · exact hlen
  · intro N hN
    unfold get_git_commits
    split_ifs with hrc
    · simp
    · omega
  
/-- Witness for C8: exit status 1 with arbitrary output yields no commits. -/
theorem git_commits_parse_witness :
    ((1 : ℤ) ≠ 0) ∧ get_git_commits 1 "garbage" = [] :=
  ⟨by norm_num, (git_commits_parse 1 "garbage").1 (by norm_num)⟩

/-! ## C4/C7: score ranges and the empty snapshot -/

theorem clamp_bounds (x : ℤ) : 0 ≤ max 0 (min 100 x) ∧ max 0 (min 100 x) ≤ 100 := by omega

theorem bp_calculate_score_le (findings : List Finding) :
    bp_calculate_score findings ≤ 100 := by
  simp only [bp_calculate_score, MAX_SCORE]
  omega

theorem ite_pair_clamp_bounds (c : Prop) (i : Decidable c) (k : ℤ) (hk : 0 ≤ k ∧ k ≤ 100)
    (f0 : List Finding) (x : ℤ) (fs : List Finding) :
    0 ≤ (if c then (k, f0) else (max 0 (min 100 x), fs)).1
      ∧ (if c then (k, f0) else (max 0 (min 100 x), fs)).1 ≤ 100 := by
  split
  · exact hk
  · exact clamp_bounds _

theorem analyze_organization_bounds (repo_data : RepoData) :
    0 ≤ (analyze_organization repo_data).1 ∧ (analyze_organization repo_data).1 ≤ 100 :=
  ite_pair_clamp_bounds _ _ 50 (by norm_num) _ _ _

theorem analyze_test_coverage_bounds (repo_data : RepoData) :
    0 ≤ (analyze_test_coverage repo_data).1 ∧ (analyze_test_coverage repo_data).1 ≤ 100 :=
  ite_pair_clamp_bounds _ _ 50 (by norm_num) _ _ _

theorem option_pair_bounds (o : Option (String × String)) (a : ℤ × List Finding)
    (g : String × String → ℤ × List Finding) (ha : 0 ≤ a.1 ∧ a.1 ≤ 100)
    (hg : ∀ fc, 0 ≤ (g fc).1 ∧ (g fc).1 ≤ 100) :
    0 ≤ (match o with | none => a | some fc => g fc).1
      ∧ (match o with | none => a | some fc => g fc).1 ≤ 100 := by
  cases o
  · exact ha
  · exact hg _

theorem analyze_readme_bounds (re : ReOracle) (repo_data : RepoData) :
    0 ≤ (analyze_readme re repo_data).1 ∧ (analyze_readme re repo_data).1 ≤ 100 := by
  refine option_pair_bounds _ _ _ ?_ ?_
  · rcases repo_data.tree.find? (fun path => pyContains (pyLower path) "readme") with _ | p
    · exact ⟨by norm_num, by norm_num⟩
    · exact ⟨by norm_num, by norm_num⟩
  · intro fc
    exact clamp_bounds _

theorem analyze_error_handling_bounds (re : ReOracle) (repo_data : RepoData)
    (v : ℤ × List Finding) (h : analyze_error_handling re repo_data = some v) :
    0 ≤ v.1 ∧ v.1 ≤ 100 := by
  unfold analyze_error_handling at h
  lift_lets at h
  extract_lets acc hr bec exo loc1 loc2 ff jp base at h
  have key : ∀ (y : ℤ) (w : ℤ × List Finding), jp y = some w → 0 ≤ w.1 ∧ w.1 ≤ 100 := by
    intro y w hw
    simp only [jp, Option.pure_def] at hw
    obtain rfl := Option.some.inj hw
    exact clamp_bounds _
  split at h
  · obtain rfl := Option.some.inj h
    exact ⟨by norm_num, by norm_num⟩
  · split at h
    · simp only [Option.bind_eq_bind, Option.pure_def, Option.some_bind'] at h
      exact key _ v h
    · split at h
      · simp only [Option.bind_eq_bind, Option.pure_def] at h
        rw [Option.bind_eq_some] at h
        obtain ⟨q, _, h2⟩ := h
        simp only [Option.bind_eq_bind, Option.pure_def, Option.some_bind'] at h2
        exact key _ v h2
      · simp only [Option.bind_eq_bind, Option.pure_def, Option.some_bind'] at h
        exact key _ v h

theorem analyze_logging_bounds (re : ReOracle) (repo_data : RepoData) :
    0 ≤ (analyze_logging re repo_data).1 ∧ (analyze_logging re repo_data).1 ≤ 100 :=
  ite_pair_clamp_bounds _ _ 50 (by norm_num) _ _ _

theorem ite_ite_pair_clamp_bounds (c c2 : Prop) (i : Decidable c) (i2 : Decidable c2)
    (k1 k2 : ℤ) (hk1 : 0 ≤ k1 ∧ k1 ≤ 100) (hk2 : 0 ≤ k2 ∧ k2 ≤ 100)
    (f1 f0 : List Finding) (x : ℤ) (fs : List Finding) :
    0 ≤ (if c then (if c2 then (k1, f1) else (k2, f0)) else (max 0 (min 100 x), fs)).1
      ∧ (if c then (if c2 then (k1, f1) else (k2, f0)) else (max 0 (min 100 x), fs)).1 ≤ 100 := by
  split
  · split
    · exact hk1
    · exact hk2
  · exact clamp_bounds _

theorem analyze_dependencies_bounds (repo_data : RepoData) :
    0 ≤ (analyze_dependencies repo_data).1 ∧ (analyze_dependencies repo_data).1 ≤ 100 :=
  ite_ite_pair_clamp_bounds _ _ _ _ 40 70 (by norm_num) (by norm_num) _ _ _ _

theorem code_quality_overall_bounds (m1 m2 m3 m4 m5 m6 : ℤ)
    (h1 : 0 ≤ m1 ∧ m1 ≤ 100) (h2 : 0 ≤ m2 ∧ m2 ≤ 100) (h3 : 0 ≤ m3 ∧ m3 ≤ 100)
    (h4 : 0 ≤ m4 ∧ m4 ≤ 100) (h5 : 0 ≤ m5 ∧ m5 ≤ 100) (h6 : 0 ≤ m6 ∧ m6 ≤ 100) :
    0 ≤ pythonTrunc ((m1 : ℚ) * metricWeight "files_organized"
        + (m2 : ℚ) * metricWeight "test_coverage"
        + (m3 : ℚ) * metricWeight "readme_quality"
        + (m4 : ℚ) * metricWeight "error_handling"
        + (m5 : ℚ) * metricWeight "logging_quality"
        + (m6 : ℚ) * metricWeight "dependency_health")
      ∧ pythonTrunc ((m1 : ℚ) * metricWeight "files_organized"
        + (m2 : ℚ) * metricWeight "test_coverage"
        + (m3 : ℚ) * metricWeight "readme_quality"
        + (m4 : ℚ) * metricWeight "error_handling"
        + (m5 : ℚ) * metricWeight "logging_quality"
        + (m6 : ℚ) * metricWeight "dependency_health") ≤ 100 := by
  have hw : metricWeight "files_organized" = 15/100 ∧ metricWeight "test_coverage" = 20/100
      ∧ metricWeight "readme_quality" = 15/100 ∧ metricWeight "error_handling" = 20/100
      ∧ metricWeight "logging_quality" = 10/100
      ∧ metricWeight "dependency_health" = 20/100 := by
    refine ⟨?_, ?_, ?_, ?_, ?_, ?_⟩ <;> simp [metricWeight, METRIC_WEIGHTS]
  obtain ⟨hw1, hw2, hw3, hw4, hw5, hw6⟩ := hw
  rw [hw1, hw2, hw3, hw4, hw5, hw6]
  have hm1 : (0 : ℚ) ≤ (m1 : ℚ) ∧ (m1 : ℚ) ≤ 100 := by exact_mod_cast h1
  have hm2 : (0 : ℚ) ≤ (m2 : ℚ) ∧ (m2 : ℚ) ≤ 100 := by exact_mod_cast h2
  have hm3 : (0 : ℚ) ≤ (m3 : ℚ) ∧ (m3 : ℚ) ≤ 100 := by exact_mod_cast h3
  have hm4 : (0 : ℚ) ≤ (m4 : ℚ) ∧ (m4 : ℚ) ≤ 100 := by exact_mod_cast h4
  have hm5 : (0 : ℚ) ≤ (m5 : ℚ) ∧ (m5 : ℚ) ≤ 100 := by exact_mod_cast h5
  have hm6 : (0 : ℚ) ≤ (m6 : ℚ) ∧ (m6 : ℚ) ≤ 100 := by exact_mod_cast h6
  apply pythonTrunc_bounds
  · linarith [hm1.1, hm2.1, hm3.1, hm4.1, hm5.1, hm6.1]
  · linarith [hm1.2, hm2.2, hm3.2, hm4.2, hm5.2, hm6.2]

theorem code_quality_score_bounds (re : ReOracle) (repo_data : RepoData) (r : CodeQuality)
    (h : code_quality_analyze re repo_data = some r) : 0 ≤ r.score ∧ r.score ≤ 100 := by
  simp only [code_quality_analyze] at h
  simp only [Option.bind_eq_bind, Option.pure_def] at h
  rw [Option.bind_eq_some] at h
  obtain ⟨err, herr, h2⟩ := h
  obtain rfl := Option.some.inj h2
  exact code_quality_overall_bounds _ _ _ _ _ _
    (analyze_organization_bounds repo_data) (analyze_test_coverage_bounds repo_data)
    (analyze_readme_bounds re repo_data) (analyze_error_handling_bounds re repo_data err herr)
    (analyze_logging_bounds re repo_data) (analyze_dependencies_bounds repo_data)

/-- Claim C4: each of the three analyzers produces a score in [0,100],
established at the point the score is constructed — AISlop clamps with
`max(0, min(100, …))`, BadPractices caps the severity sum with
`min(_, 100)`, and CodeQuality truncates a convex combination of six
sub-scores that are each clamped to [0,100] when returned. -/
theorem analyzer_scores_in_range :
    (∀ (cr : ClassifierResult) (f : ExtractedFeatures) (rc : ℕ) (e : Bool),
        0 ≤ (calculate_score cr f rc e).1 ∧ (calculate_score cr f rc e).1 ≤ 100)
    ∧ (∀ (re : ReOracle) (repo_data : RepoData),
        0 ≤ (bad_practices_analyze re repo_data).score
          ∧ (bad_practices_analyze re repo_data).score ≤ 100)
    ∧ (∀ (re : ReOracle) (repo_data : RepoData) (r : CodeQuality),
        code_quality_analyze re repo_data = some r → 0 ≤ r.score ∧ r.score ≤ 100) := by
  refine ⟨?_, ?_, code_quality_score_bounds⟩
  · intro cr f rc e
    rw [calc_score_fst_eq]
    exact clamp_bounds _
  · intro re repo_data
    have h : (bad_practices_analyze re repo_data).score
        = (bp_calculate_score (bad_practices_analyze re repo_data).findings : ℤ) := rfl
    rw [h]
    have := bp_calculate_score_le (bad_practices_analyze re repo_data).findings
    constructor
    · positivity
    · exact_mod_cast this


/-- On the empty snapshot the code-quality analyzer returns `some` of the
neutral result, for every regex oracle: organization 50, test coverage 50,
readme 0 with the `no_readme` finding, error handling 50, logging 50,
dependency health 70, overall `int(46.5) = 46`. -/
theorem cq_empty_eval (re : ReOracle) :
    code_quality_analyze re emptyRepo = some cqEmptyResult := by
  have h1 : analyze_organization emptyRepo = ((50 : ℤ), ([] : List Finding)) := rfl
  have h2 : analyze_test_coverage emptyRepo = ((50 : ℤ), ([] : List Finding)) := rfl
  have h3 : analyze_readme re emptyRepo = ((0 : ℤ), [cqEmptyFinding]) := rfl
  have h4 : analyze_error_handling re emptyRepo = some ((50 : ℤ), ([] : List Finding)) := rfl
  have h5 : analyze_logging re emptyRepo = ((50 : ℤ), ([] : List Finding)) := rfl
  have h6 : analyze_dependencies emptyRepo = ((70 : ℤ), ([] : List Finding)) := rfl
  have hw1 : metricWeight "files_organized" = 15/100 := by simp [metricWeight, METRIC_WEIGHTS]
  have hw2 : metricWeight "test_coverage" = 20/100 := by simp [metricWeight, METRIC_WEIGHTS]
  have hw3 : metricWeight "readme_quality" = 15/100 := by simp [metricWeight, METRIC_WEIGHTS]
  have hw4 : metricWeight "error_handling" = 20/100 := by simp [metricWeight, METRIC_WEIGHTS]
  have hw5 : metricWeight "logging_quality" = 10/100 := by simp [metricWeight, METRIC_WEIGHTS]
  have hw6 : metricWeight "dependency_health" = 20/100 := by
    simp [metricWeight, METRIC_WEIGHTS]
  have hfl : ⌊(93 / 2 : ℚ)⌋ = 46 := by
    rw [Int.floor_eq_iff]
    norm_num
  simp only [code_quality_analyze, h1, h2, h3, h4, h5, h6, Option.bind_eq_bind,
    Option.pure_def, Option.some_bind', List.append_nil, List.nil_append,
    cqEmptyResult, Option.some.injEq, CodeQuality.mk.injEq, and_true, true_and]
  rw [hw1, hw2, hw3, hw4, hw5, hw6]
  have h93 : ((50 : ℤ) : ℚ) * (15/100) + ((50 : ℤ) : ℚ) * (20/100)
      + ((0 : ℤ) : ℚ) * (15/100) + ((50 : ℤ) : ℚ) * (20/100)
      + ((50 : ℤ) : ℚ) * (10/100) + ((70 : ℤ) : ℚ) * (20/100) = 93 / 2 := by
    norm_num
  rw [h93]
  simp only [pythonTrunc]
  rw [if_neg (by norm_num), hfl]

/-- Witness for C4: at the trivial oracle and the empty repository the
code-quality analyzer returns a concrete result, whose score the range
theorem then bounds. -/
theorem analyzer_scores_in_range_witness :
    code_quality_analyze trivialOracle emptyRepo = some cqEmptyResult
      ∧ 0 ≤ cqEmptyResult.score ∧ cqEmptyResult.score ≤ 100 :=
  ⟨cq_empty_eval trivialOracle,
    analyzer_scores_in_range.2.2 trivialOracle emptyRepo cqEmptyResult
      (cq_empty_eval trivialOracle)⟩

/-- Claim C7: on the snapshot with zero files and an empty tree, each
analyzer returns its defined neutral result, for every regex oracle,
classifier and per-file feature extractor: AISlop carries empty
negative/positive signal lists, the default-feature style report and the
pure-ML score `clamp(0, 100, round(P(AI)·100·0.40))` (the heuristic
contribution is 0); BadPractices is all-zero with no findings; CodeQuality
is `some` of the neutral 46-point result — no computation is partial on
this input. -/
theorem empty_snapshot_neutral (re : ReOracle)
    (predict : List (String × ℚ) → ClassifierResult)
    (extractor : String → String → FileFeatures) :
    (ai_slop_analyze re predict emptyRepo (extract_features extractor emptyRepo)
        = { score := (calculate_score (predict (features_to_dict (aggregate_features [])))
              (aggregate_features []) 0 false).1,
            confidence := (calculate_score (predict (features_to_dict (aggregate_features [])))
              (aggregate_features []) 0 false).2,
            style_features := build_style_features (aggregate_features []) 0,
            negative_ai_signals := [], positive_ai_signals := [] })
      ∧ (calculate_score (predict (features_to_dict (aggregate_features [])))
            (aggregate_features []) 0 false).1
          = max 0 (min 100 (pythonRound
              ((predict (features_to_dict (aggregate_features []))).ai_probability
                * 100 * ML_WEIGHT)))
      ∧ bad_practices_analyze re emptyRepo
          = { score := 0, security_issues := 0, robustness_issues := 0,
              hygiene_issues := 0, findings := [] }
      ∧ code_quality_analyze re emptyRepo = some cqEmptyResult := by
  refine ⟨rfl, ?_, rfl, cq_empty_eval re⟩
  rw [calc_score_fst_eq]
  have hf : aggregate_features [] = {} := rfl
  rw [hf]
  norm_num [heuristicScore, heur_comment_ratio_pts, heur_redundant_pts, heur_var_name_pts,
    heur_func_name_pts, heur_consistency_pts, COMMENT_RATIO_HIGH, COMMENT_RATIO_MEDIUM,
    REDUNDANT_COMMENT_HIGH, REDUNDANT_COMMENT_MEDIUM, AVG_VAR_NAME_LENGTH_HIGH,
    AVG_VAR_NAME_LENGTH_MEDIUM, AVG_FUNC_NAME_LENGTH_HIGH, AVG_FUNC_NAME_LENGTH_MEDIUM]

end AntiSoy
